import Mathlib

/-!
# Verification of the StaticDeploy deploy endpoint

Shallow embedding of `src/web-server/src/api/deploy/post.ts`: the handler of
`POST /deploy`, which resolves a bundle, an app and an entrypoint, lazily
creates the app and the entrypoint, and points the entrypoint at the bundle.

The storage layer (`@staticdeploy/storage`) is an external collaborator whose
sources are not part of the material; its operations
(`findLatestByNameTagCombination`, `findOneByIdOrName`,
`findOneByIdOrUrlMatcher`, `create`, `update`) are modelled from the spec's
interface section. The urlMatcher validator `validateEntrypointUrlMatcher` is
likewise external and is kept abstract: the handler is parameterised over an
arbitrary predicate `valid : String → Bool`.

Collaborator faults (a storage or audit-log call raising) are modelled by a
fault oracle: a function from the handler's fallible call sites to
`Option Nat`, `some f` meaning that call raises fault `f`.
-/

namespace StaticDeploy

/-- Opaque key-value configuration map (`defaultConfiguration`,
`configuration`). -/
abbrev Configuration := List (String × String)

/-- A bundle record: immutable artifact with a name and a tag. -/
structure Bundle where
  id : Nat
  name : String
  tag : String
  deriving Repr, DecidableEq

/-- An app record. -/
structure App where
  id : Nat
  name : String
  defaultConfiguration : Configuration
  deriving Repr, DecidableEq

/-- An entrypoint record: a URL-routing rule owned by an app, optionally
pointing at a bundle. -/
structure Entrypoint where
  id : Nat
  appId : Nat
  urlMatcher : String
  configuration : Option Configuration
  bundleId : Option Nat
  deriving Repr, DecidableEq

/-- The storage collaborator's persistent state. Lists are kept in creation
order; `nextId` generates fresh record ids. -/
structure StorageState where
  bundles : List Bundle
  apps : List App
  entrypoints : List Entrypoint
  nextId : Nat
  deriving Repr, DecidableEq

/-- The schema-validated request body of `POST /deploy`. -/
structure DeployRequest where
  appName : String
  entrypointUrlMatcher : String
  bundleNameTagCombination : String
  deriving Repr, DecidableEq

/-- The "name:tag combination" key of a bundle. -/
def nameTagCombination (b : Bundle) : String :=
  b.name ++ ":" ++ b.tag

/-- Modelled from the spec: storage collaborator
`FindLatestByNameTag(ref) -> Bundle|null` — resolves to the latest bundle
(by creation order, lists being kept in creation order) whose name:tag
combination equals `ref`. -/
def findLatestByNameTagCombination (bundles : List Bundle) (ref : String) :
    Option Bundle :=
  (bundles.filter (fun b => nameTagCombination b == ref)).getLast?

/-- Whether an app record matches an id-or-name reference string. -/
def appMatchesRef (a : App) (ref : String) : Bool :=
  toString a.id == ref || a.name == ref

/-- Modelled from the spec: storage collaborator
`FindOneByIdOrName(ref) -> App|null`. -/
def findOneByIdOrName (apps : List App) (ref : String) : Option App :=
  apps.find? (fun a => appMatchesRef a ref)

/-- Whether an entrypoint record matches an id-or-urlMatcher reference
string. -/
def entrypointMatchesRef (e : Entrypoint) (ref : String) : Bool :=
  toString e.id == ref || e.urlMatcher == ref

/-- Modelled from the spec: storage collaborator
`FindOneByIdOrUrlMatcher(ref) -> Entrypoint|null`. -/
def findOneByIdOrUrlMatcher (entrypoints : List Entrypoint) (ref : String) :
    Option Entrypoint :=
  entrypoints.find? (fun e => entrypointMatchesRef e ref)

/-- Modelled from the spec: storage collaborator
`Apps.Create({name, defaultConfiguration}) -> App` — appends a record with a
fresh id and returns it. -/
def createAppRecord (s : StorageState) (name : String)
    (defaultConfiguration : Configuration) : App × StorageState :=
  let a : App := ⟨s.nextId, name, defaultConfiguration⟩
  (a, { s with apps := s.apps ++ [a], nextId := s.nextId + 1 })

/-- Modelled from the spec: storage collaborator
`Entrypoints.Create({appId, urlMatcher, configuration}) -> Entrypoint` —
appends a record with a fresh id and a null bundle reference. -/
def createEntrypointRecord (s : StorageState) (appId : Nat)
    (urlMatcher : String) (configuration : Option Configuration) :
    Entrypoint × StorageState :=
  let e : Entrypoint := ⟨s.nextId, appId, urlMatcher, configuration, none⟩
  (e, { s with entrypoints := s.entrypoints ++ [e], nextId := s.nextId + 1 })

/-- Set an entrypoint's bundle reference. -/
def setBundle (bundleId : Nat) (e : Entrypoint) : Entrypoint :=
  { e with bundleId := some bundleId }

/-- The pointwise effect of `Entrypoints.Update(id, {bundleId})` on one
stored record. -/
def applyBundleUpdate (id bundleId : Nat) (e : Entrypoint) : Entrypoint :=
  if e.id == id then setBundle bundleId e else e

/-- Modelled from the spec: the state change of storage collaborator
`Entrypoints.Update(id, {bundleId}) -> Entrypoint` — the record with the given
id gets its `bundleId` replaced, nothing else changes. -/
def updateEntrypoints (entrypoints : List Entrypoint) (id bundleId : Nat) :
    List Entrypoint :=
  entrypoints.map (applyBundleUpdate id bundleId)

/-- Audit events emitted through `req.logOperation`, with the payloads the
handler passes (`createdApp`, `createdEntrypoint`,
`oldEntrypoint`/`newEntrypoint`). -/
inductive AuditEvent where
  | createApp (createdApp : App)
  | createEntrypoint (createdEntrypoint : Entrypoint)
  | updateEntrypoint (oldEntrypoint newEntrypoint : Entrypoint)
  deriving Repr, DecidableEq

/-- The collaborator calls the handler performs, in order, as observable
trace entries. Only calls that actually complete are recorded. -/
inductive StorageCall where
  | findBundle (ref : String)
  | findApp (ref : String)
  | findEntrypoint (ref : String)
  | validateUrlMatcher (matcher : String)
  | createApp (name : String)
  | createEntrypoint (appId : Nat) (urlMatcher : String)
  | updateEntrypoint (id : Nat) (bundleId : Nat)
  | logOperation (ev : AuditEvent)
  deriving Repr, DecidableEq

/-- Errors the handler raises (as opposed to responses it sends itself):
`BundleNotFoundError`, the validation error of
`validateEntrypointUrlMatcher`, or a fault raised by a storage / audit-log
call and propagated unchanged. -/
inductive RaisedError where
  | bundleNotFound (ref : String) (refKind : String)
  | invalidUrlMatcher (matcher : String)
  | collaboratorFault (fault : Nat)
  deriving Repr, DecidableEq

/-- What the handler's execution ends with: a response it sent itself
(status code and optional body), or a raised error left to the HTTP boundary. -/
inductive HandlerResult where
  | sent (status : Nat) (body : Option String)
  | raised (e : RaisedError)
  deriving Repr, DecidableEq

/-- Complete observable outcome of one handler execution. -/
structure DeployOutcome where
  result : HandlerResult
  state : StorageState
  audit : List AuditEvent
  trace : List StorageCall
  deriving Repr, DecidableEq

/-- The handler's fallible collaborator call sites (the calls `await`ed after
the initial lookups). -/
inductive CallSite where
  | createAppCall
  | logCreateApp
  | createEntrypointCall
  | logCreateEntrypoint
  | updateEntrypointCall
  | logUpdateEntrypoint
  deriving Repr, DecidableEq

/-- A fault oracle: which fallible call site raises which fault. -/
abbrev FaultOracle := CallSite → Option Nat

/-- The 409 message of the handler, verbatim
(`Entrypoint with urlMatcher = ... doesn\x27t link to app with name = ...`). -/
def conflictMessage (urlMatcher appName : String) : String :=
  "Entrypoint with urlMatcher = " ++ urlMatcher ++
    " doesn\x27t link to app with name = " ++ appName

/-- The handler's entrypoint/app consistency test:
`existingEntrypoint !== null && (!existingApp || existingApp.id !== existingEntrypoint.appId)`. -/
def epConflict (existingApp : Option App)
    (existingEntrypoint : Option Entrypoint) : Bool :=
  match existingEntrypoint, existingApp with
  | some _, none => true
  | some e, some a => a.id != e.appId
  | none, _ => false

/-- Final stage of the handler: update the resolved entrypoint to point at the
supplied bundle, log the operation, respond 204. -/
def deployUpdateStage (F : FaultOracle) (bundle : Bundle)
    (entrypoint : Entrypoint) (s : StorageState) (audit : List AuditEvent)
    (trace : List StorageCall) : DeployOutcome :=
  match F .updateEntrypointCall with
  | some f => ⟨.raised (.collaboratorFault f), s, audit, trace⟩
  | none =>
    let newEntrypoint := setBundle bundle.id entrypoint
    let s1 : StorageState :=
      { s with entrypoints := updateEntrypoints s.entrypoints entrypoint.id bundle.id }
    let trace1 := trace ++ [StorageCall.updateEntrypoint entrypoint.id bundle.id]
    match F .logUpdateEntrypoint with
    | some f => ⟨.raised (.collaboratorFault f), s1, audit, trace1⟩
    | none =>
      let ev := AuditEvent.updateEntrypoint entrypoint newEntrypoint
      ⟨.sent 204 none, s1, audit ++ [ev], trace1 ++ [StorageCall.logOperation ev]⟩

/-- Middle stage of the handler: create the entrypoint if it does not exist
(with the given urlMatcher, null configuration and null bundle), log the
creation, then proceed to the update stage. -/
def deployEntrypointStage (F : FaultOracle) (req : DeployRequest)
    (bundle : Bundle) (app : App) (existingEntrypoint : Option Entrypoint)
    (s : StorageState) (audit : List AuditEvent) (trace : List StorageCall) :
    DeployOutcome :=
  match existingEntrypoint with
  | some entrypoint => deployUpdateStage F bundle entrypoint s audit trace
  | none =>
    match F .createEntrypointCall with
    | some f => ⟨.raised (.collaboratorFault f), s, audit, trace⟩
    | none =>
      let created := createEntrypointRecord s app.id req.entrypointUrlMatcher none
      let entrypoint := created.1
      let s1 := created.2
      let trace1 := trace ++ [StorageCall.createEntrypoint app.id req.entrypointUrlMatcher]
      match F .logCreateEntrypoint with
      | some f => ⟨.raised (.collaboratorFault f), s1, audit, trace1⟩
      | none =>
        let ev := AuditEvent.createEntrypoint entrypoint
        deployUpdateStage F bundle entrypoint s1 (audit ++ [ev])
          (trace1 ++ [StorageCall.logOperation ev])

/-- First mutation stage of the handler: if no app was found, validate the
urlMatcher eagerly, then create the app (name = appName, empty default
configuration), log the creation, and proceed to the entrypoint stage. -/
def deployAppStage (F : FaultOracle) (valid : String → Bool)
    (req : DeployRequest) (bundle : Bundle) (existingApp : Option App)
    (existingEntrypoint : Option Entrypoint) (s : StorageState)
    (audit : List AuditEvent) (trace : List StorageCall) : DeployOutcome :=
  match existingApp with
  | some app => deployEntrypointStage F req bundle app existingEntrypoint s audit trace
  | none =>
    let trace1 := trace ++ [StorageCall.validateUrlMatcher req.entrypointUrlMatcher]
    if valid req.entrypointUrlMatcher then
      match F .createAppCall with
      | some f => ⟨.raised (.collaboratorFault f), s, audit, trace1⟩
      | none =>
        let created := createAppRecord s req.appName []
        let app := created.1
        let s1 := created.2
        let trace2 := trace1 ++ [StorageCall.createApp req.appName]
        match F .logCreateApp with
        | some f => ⟨.raised (.collaboratorFault f), s1, audit, trace2⟩
        | none =>
          let ev := AuditEvent.createApp app
          deployEntrypointStage F req bundle app existingEntrypoint s1
            (audit ++ [ev]) (trace2 ++ [StorageCall.logOperation ev])
    else
      ⟨.raised (.invalidUrlMatcher req.entrypointUrlMatcher), s, audit, trace1⟩

/-- The trace entries of the three initial lookups. -/
def lookupTrace (req : DeployRequest) : List StorageCall :=
  [StorageCall.findBundle req.bundleNameTagCombination,
   StorageCall.findApp req.appName,
   StorageCall.findEntrypoint req.entrypointUrlMatcher]

/-- Decision logic of the handler, applied to the jointly awaited results of
the three initial lookups: bundle-existence check, entrypoint/app consistency
check, then the mutation stages. -/
def deployDecision (F : FaultOracle) (valid : String → Bool)
    (req : DeployRequest) (s : StorageState) (bundle : Option Bundle)
    (existingApp : Option App) (existingEntrypoint : Option Entrypoint) :
    DeployOutcome :=
  match bundle with
  | none =>
    ⟨.raised (.bundleNotFound req.bundleNameTagCombination "name:tag combination"),
     s, [], lookupTrace req⟩
  | some bundle =>
    if epConflict existingApp existingEntrypoint then
      ⟨.sent 409 (some (conflictMessage req.entrypointUrlMatcher req.appName)),
       s, [], lookupTrace req⟩
    else
      deployAppStage F valid req bundle existingApp existingEntrypoint s []
        (lookupTrace req)

/-- The `POST /deploy` handler of `src/web-server/src/api/deploy/post.ts`,
with collaborator faults made explicit through the oracle `F`. -/
def deploy (F : FaultOracle) (valid : String → Bool) (s : StorageState)
    (req : DeployRequest) : DeployOutcome :=
  deployDecision F valid req s
    (findLatestByNameTagCombination s.bundles req.bundleNameTagCombination)
    (findOneByIdOrName s.apps req.appName)
    (findOneByIdOrUrlMatcher s.entrypoints req.entrypointUrlMatcher)

/-- No collaborator call faults. -/
def noFault : FaultOracle := fun _ => none

/-- The handler in fault-free executions. -/
def handler (valid : String → Bool) (s : StorageState) (req : DeployRequest) :
    DeployOutcome :=
  deploy noFault valid s req

/-- Two entrypoint records that agree on every field except possibly
`bundleId`. -/
def sameExceptBundle (e0 e1 : Entrypoint) : Prop :=
  e1.id = e0.id ∧ e1.appId = e0.appId ∧ e1.urlMatcher = e0.urlMatcher ∧
    e1.configuration = e0.configuration

/-! ## Named outcomes of the handler's six control-flow paths -/

/-- Outcome of the path where the bundle is absent. -/
def outcomeNotFound (s : StorageState) (r : DeployRequest) : DeployOutcome :=
  ⟨.raised (.bundleNotFound r.bundleNameTagCombination "name:tag combination"),
   s, [], lookupTrace r⟩

/-- Outcome of the entrypoint/app mismatch path. -/
def outcomeConflict (s : StorageState) (r : DeployRequest) : DeployOutcome :=
  ⟨.sent 409 (some (conflictMessage r.entrypointUrlMatcher r.appName)),
   s, [], lookupTrace r⟩

/-- Outcome of the path where app and entrypoint both exist and are
consistent: only the entrypoint update runs. -/
def outcomeA (s : StorageState) (r : DeployRequest) (b : Bundle)
    (e : Entrypoint) : DeployOutcome :=
  ⟨.sent 204 none,
   { s with entrypoints := updateEntrypoints s.entrypoints e.id b.id },
   [AuditEvent.updateEntrypoint e (setBundle b.id e)],
   lookupTrace r ++
     [StorageCall.updateEntrypoint e.id b.id,
      StorageCall.logOperation (AuditEvent.updateEntrypoint e (setBundle b.id e))]⟩

/-- The entrypoint record created when the app `a` exists already. -/
def createdEpB (s : StorageState) (r : DeployRequest) (a : App) : Entrypoint :=
  ⟨s.nextId, a.id, r.entrypointUrlMatcher, none, none⟩

/-- Outcome of the path where the app exists but the entrypoint does not:
entrypoint creation followed by the update. -/
def outcomeB (s : StorageState) (r : DeployRequest) (b : Bundle) (a : App) :
    DeployOutcome :=
  ⟨.sent 204 none,
   { s with
      entrypoints :=
        updateEntrypoints (s.entrypoints ++ [createdEpB s r a]) s.nextId b.id,
      nextId := s.nextId + 1 },
   [AuditEvent.createEntrypoint (createdEpB s r a),
    AuditEvent.updateEntrypoint (createdEpB s r a) (setBundle b.id (createdEpB s r a))],
   lookupTrace r ++
     [StorageCall.createEntrypoint a.id r.entrypointUrlMatcher,
      StorageCall.logOperation (AuditEvent.createEntrypoint (createdEpB s r a)),
      StorageCall.updateEntrypoint s.nextId b.id,
      StorageCall.logOperation
        (AuditEvent.updateEntrypoint (createdEpB s r a)
          (setBundle b.id (createdEpB s r a)))]⟩

/-- The app record created when no app was found. -/
def createdApp (s : StorageState) (r : DeployRequest) : App :=
  ⟨s.nextId, r.appName, []⟩

/-- The entrypoint record created right after `createdApp`. -/
def createdEpC (s : StorageState) (r : DeployRequest) : Entrypoint :=
  ⟨s.nextId + 1, s.nextId, r.entrypointUrlMatcher, none, none⟩

/-- Outcome of the path where neither app nor entrypoint exists and the
urlMatcher is valid: app creation, entrypoint creation, update. -/
def outcomeC (s : StorageState) (r : DeployRequest) (b : Bundle) :
    DeployOutcome :=
  ⟨.sent 204 none,
   { s with
      apps := s.apps ++ [createdApp s r],
      entrypoints :=
        updateEntrypoints (s.entrypoints ++ [createdEpC s r]) (s.nextId + 1) b.id,
      nextId := s.nextId + 2 },
   [AuditEvent.createApp (createdApp s r),
    AuditEvent.createEntrypoint (createdEpC s r),
    AuditEvent.updateEntrypoint (createdEpC s r) (setBundle b.id (createdEpC s r))],
   lookupTrace r ++
     [StorageCall.validateUrlMatcher r.entrypointUrlMatcher,
      StorageCall.createApp r.appName,
      StorageCall.logOperation (AuditEvent.createApp (createdApp s r)),
      StorageCall.createEntrypoint s.nextId r.entrypointUrlMatcher,
      StorageCall.logOperation (AuditEvent.createEntrypoint (createdEpC s r)),
      StorageCall.updateEntrypoint (s.nextId + 1) b.id,
      StorageCall.logOperation
        (AuditEvent.updateEntrypoint (createdEpC s r)
          (setBundle b.id (createdEpC s r)))]⟩

/-- Outcome of the path where no app exists and the urlMatcher fails
validation. -/
def outcomeInvalid (s : StorageState) (r : DeployRequest) : DeployOutcome :=
  ⟨.raised (.invalidUrlMatcher r.entrypointUrlMatcher), s, [],
   lookupTrace r ++ [StorageCall.validateUrlMatcher r.entrypointUrlMatcher]⟩

/-! ## Audit-kind and call classification -/

/-- The three kinds of storage mutation / audit event. -/
inductive AuditKind where
  | app
  | ep
  | upd
  deriving Repr, DecidableEq

/-- The kind of an audit event. -/
def kindOfEvent : AuditEvent → AuditKind
  | .createApp _ => .app
  | .createEntrypoint _ => .ep
  | .updateEntrypoint _ _ => .upd

/-- The mutation kind of a collaborator call (`none` for reads, validation
and audit-log calls). -/
def mutationKindOfCall : StorageCall → Option AuditKind
  | .createApp _ => some .app
  | .createEntrypoint _ _ => some .ep
  | .updateEntrypoint _ _ => some .upd
  | _ => none

/-- Whether a call is the app-creation call. -/
def isCreateAppCall : StorageCall → Bool
  | .createApp _ => true
  | _ => false

/-- Whether a call is the entrypoint-creation call. -/
def isCreateEpCall : StorageCall → Bool
  | .createEntrypoint _ _ => true
  | _ => false

/-- Whether a call is the entrypoint-update call. -/
def isUpdateEpCall : StorageCall → Bool
  | .updateEntrypoint _ _ => true
  | _ => false

/-! ## Interleaving model of the initial lookup fan-out

The three initial lookups are issued concurrently (`Promise.all`); none of
them mutates state and none reads another's result. An execution of the
fan-out is an order in which the three read actions complete; the joined
result is the record of all three. -/

/-- The three read actions of the fan-out. -/
inductive LookupKind where
  | bundle
  | app
  | entrypoint
  deriving Repr, DecidableEq

/-- Partial join record of the fan-out: `none` means that read has not
completed yet. -/
structure FanOutResult where
  bundleRes : Option (Option Bundle)
  appRes : Option (Option App)
  entrypointRes : Option (Option Entrypoint)
  deriving Repr, DecidableEq

/-- Completing one read action: it reads only the (unchanging) storage state
and its own request field, never another action's slot. -/
def runLookup (s : StorageState) (r : DeployRequest) (acc : FanOutResult) :
    LookupKind → FanOutResult
  | .bundle =>
    { acc with
        bundleRes := some (findLatestByNameTagCombination s.bundles r.bundleNameTagCombination) }
  | .app => { acc with appRes := some (findOneByIdOrName s.apps r.appName) }
  | .entrypoint =>
    { acc with
        entrypointRes := some (findOneByIdOrUrlMatcher s.entrypoints r.entrypointUrlMatcher) }

/-- Running the fan-out with the read actions completing in the given
order. -/
def runFanOut (s : StorageState) (r : DeployRequest)
    (order : List LookupKind) : FanOutResult :=
  order.foldl (runLookup s r) ⟨none, none, none⟩

/-! ## Concrete inputs used by the witnesses -/

/-- A validator accepting every urlMatcher. -/
def wAccept : String → Bool := fun _ => true

/-- A validator rejecting every urlMatcher. -/
def wReject : String → Bool := fun _ => false

/-- A concrete bundle, name:tag combination `site:v1`. -/
def wBundle : Bundle := ⟨1, "site", "v1"⟩

/-- Storage holding just `wBundle`: app and entrypoint absent. -/
def wState : StorageState := ⟨[wBundle], [], [], 10⟩

/-- A concrete deploy request for `wBundle`. -/
def wReq : DeployRequest := ⟨"acme", "acme.example.com", "site:v1"⟩

/-- Empty storage: the bundle is absent. -/
def wStateEmpty : StorageState := ⟨[], [], [], 0⟩

/-- Storage where the requested entrypoint exists but its owning app
(id 4) is not the resolved app (the app lookup finds nothing). -/
def wStateConflict : StorageState :=
  ⟨[wBundle], [⟨2, "other", []⟩], [⟨3, 4, "acme.example.com", none, none⟩], 10⟩

/-- Storage where the app `acme` exists but the entrypoint does not. -/
def wStateAppOnly : StorageState :=
  ⟨[wBundle], [⟨5, "acme", []⟩], [], 10⟩

/-- Storage where both the app and its entrypoint exist and are
consistently linked. -/
def wStateLinked : StorageState :=
  ⟨[wBundle], [⟨5, "acme", []⟩], [⟨6, 5, "acme.example.com", none, none⟩], 10⟩

/-- A fault oracle that never faults (used by witnesses over `deploy`). -/
def wNoFault : FaultOracle := fun _ => none

/-- A fault oracle making the entrypoint-update call raise fault 7. -/
def wFaultUpd : FaultOracle := fun c =>
  match c with
  | .updateEntrypointCall => some 7
  | _ => none

/-! ## List-level helper lemmas -/

theorem find?_map_pred {α : Type _} (g : α → α) (p : α → Bool)
    (h : ∀ x, p (g x) = p x) :
    ∀ l : List α, (l.map g).find? p = (l.find? p).map g
  | [] => rfl
  | a :: t => by
    rw [List.map_cons]
    by_cases hp : p a = true
    · rw [List.find?_cons_of_pos _ ((h a).trans hp),
        List.find?_cons_of_pos _ hp, Option.map_some']
    · have hp' : ¬p (g a) = true := by rw [h a]; exact hp
      rw [List.find?_cons_of_neg _ hp', List.find?_cons_of_neg _ hp]
      exact find?_map_pred g p h t

theorem entrypointMatchesRef_applyBundleUpdate (id bid : Nat) (e : Entrypoint)
    (ref : String) :
    entrypointMatchesRef (applyBundleUpdate id bid e) ref =
      entrypointMatchesRef e ref := by
  unfold applyBundleUpdate
  split <;> rfl

theorem applyBundleUpdate_idem (id bid : Nat) (e : Entrypoint) :
    applyBundleUpdate id bid (applyBundleUpdate id bid e) =
      applyBundleUpdate id bid e := by
  by_cases h : (e.id == id) = true
  · simp [applyBundleUpdate, setBundle, h]
  · simp [applyBundleUpdate, h]

theorem updateEntrypoints_idem (l : List Entrypoint) (id bid : Nat) :
    updateEntrypoints (updateEntrypoints l id bid) id bid =
      updateEntrypoints l id bid := by
  unfold updateEntrypoints
  rw [List.map_map]
  have hfun : applyBundleUpdate id bid ∘ applyBundleUpdate id bid =
      applyBundleUpdate id bid := funext (applyBundleUpdate_idem id bid)
  rw [hfun]

theorem findOneByIdOrUrlMatcher_updateEntrypoints (l : List Entrypoint)
    (id bid : Nat) (ref : String) :
    findOneByIdOrUrlMatcher (updateEntrypoints l id bid) ref =
      (findOneByIdOrUrlMatcher l ref).map (applyBundleUpdate id bid) :=
  find?_map_pred _ _ (fun e => entrypointMatchesRef_applyBundleUpdate id bid e ref) l

theorem findOneByIdOrName_append (l1 l2 : List App) (ref : String) :
    findOneByIdOrName (l1 ++ l2) ref =
      (findOneByIdOrName l1 ref).or (findOneByIdOrName l2 ref) :=
  List.find?_append

theorem findOneByIdOrUrlMatcher_append (l1 l2 : List Entrypoint) (ref : String) :
    findOneByIdOrUrlMatcher (l1 ++ l2) ref =
      (findOneByIdOrUrlMatcher l1 ref).or (findOneByIdOrUrlMatcher l2 ref) :=
  List.find?_append

theorem sameExceptBundle_refl (e : Entrypoint) : sameExceptBundle e e :=
  ⟨rfl, rfl, rfl, rfl⟩

theorem sameExceptBundle_applyBundleUpdate (id bid : Nat) (e : Entrypoint) :
    sameExceptBundle e (applyBundleUpdate id bid e) := by
  unfold applyBundleUpdate setBundle
  split
  · exact ⟨rfl, rfl, rfl, rfl⟩
  · exact ⟨rfl, rfl, rfl, rfl⟩

/-! ## Execution-shape lemmas for the fault-free handler

One lemma per control-flow path of the handler, each giving the full
observable outcome. -/

theorem handler_bundle_none (v : String → Bool) (s : StorageState)
    (r : DeployRequest)
    (hb : findLatestByNameTagCombination s.bundles r.bundleNameTagCombination = none) :
    handler v s r =
      ⟨.raised (.bundleNotFound r.bundleNameTagCombination "name:tag combination"),
       s, [], lookupTrace r⟩ := by
  unfold handler deploy
  rw [hb]
  rfl

theorem handler_conflict_case (v : String → Bool) (s : StorageState)
    (r : DeployRequest) (b : Bundle) (e : Entrypoint)
    (hb : findLatestByNameTagCombination s.bundles r.bundleNameTagCombination = some b)
    (he : findOneByIdOrUrlMatcher s.entrypoints r.entrypointUrlMatcher = some e)
    (hc : epConflict (findOneByIdOrName s.apps r.appName) (some e) = true) :
    handler v s r =
      ⟨.sent 409 (some (conflictMessage r.entrypointUrlMatcher r.appName)),
       s, [], lookupTrace r⟩ := by
  unfold handler deploy
  rw [hb, he]
  unfold deployDecision
  rw [hc]
  rfl

theorem handler_caseA (v : String → Bool) (s : StorageState)
    (r : DeployRequest) (b : Bundle) (a : App) (e : Entrypoint)
    (hb : findLatestByNameTagCombination s.bundles r.bundleNameTagCombination = some b)
    (ha : findOneByIdOrName s.apps r.appName = some a)
    (he : findOneByIdOrUrlMatcher s.entrypoints r.entrypointUrlMatcher = some e)
    (hid : a.id = e.appId) :
    handler v s r =
      ⟨.sent 204 none,
       { s with entrypoints := updateEntrypoints s.entrypoints e.id b.id },
       [AuditEvent.updateEntrypoint e (setBundle b.id e)],
       lookupTrace r ++
         [StorageCall.updateEntrypoint e.id b.id,
          StorageCall.logOperation (AuditEvent.updateEntrypoint e (setBundle b.id e))]⟩ := by
  unfold handler deploy
  rw [hb, ha, he]
  simp [deployDecision, epConflict, hid, deployAppStage, deployEntrypointStage,
    deployUpdateStage, noFault]

theorem handler_caseB (v : String → Bool) (s : StorageState)
    (r : DeployRequest) (b : Bundle) (a : App)
    (hb : findLatestByNameTagCombination s.bundles r.bundleNameTagCombination = some b)
    (ha : findOneByIdOrName s.apps r.appName = some a)
    (he : findOneByIdOrUrlMatcher s.entrypoints r.entrypointUrlMatcher = none) :
    handler v s r =
      ⟨.sent 204 none,
       { s with
          entrypoints :=
            updateEntrypoints
              (s.entrypoints ++ [⟨s.nextId, a.id, r.entrypointUrlMatcher, none, none⟩])
              s.nextId b.id,
          nextId := s.nextId + 1 },
       [AuditEvent.createEntrypoint ⟨s.nextId, a.id, r.entrypointUrlMatcher, none, none⟩,
        AuditEvent.updateEntrypoint ⟨s.nextId, a.id, r.entrypointUrlMatcher, none, none⟩
          (setBundle b.id ⟨s.nextId, a.id, r.entrypointUrlMatcher, none, none⟩)],
       lookupTrace r ++
         [StorageCall.createEntrypoint a.id r.entrypointUrlMatcher,
          StorageCall.logOperation
            (AuditEvent.createEntrypoint ⟨s.nextId, a.id, r.entrypointUrlMatcher, none, none⟩),
          StorageCall.updateEntrypoint s.nextId b.id,
          StorageCall.logOperation
            (AuditEvent.updateEntrypoint ⟨s.nextId, a.id, r.entrypointUrlMatcher, none, none⟩
              (setBundle b.id ⟨s.nextId, a.id, r.entrypointUrlMatcher, none, none⟩))]⟩ := by
  unfold handler deploy
  rw [hb, ha, he]
  simp [deployDecision, epConflict, deployAppStage, deployEntrypointStage,
    deployUpdateStage, createEntrypointRecord, noFault]

theorem handler_caseC (v : String → Bool) (s : StorageState)
    (r : DeployRequest) (b : Bundle)
    (hb : findLatestByNameTagCombination s.bundles r.bundleNameTagCombination = some b)
    (ha : findOneByIdOrName s.apps r.appName = none)
    (he : findOneByIdOrUrlMatcher s.entrypoints r.entrypointUrlMatcher = none)
    (hv : v r.entrypointUrlMatcher = true) :
    handler v s r =
      ⟨.sent 204 none,
       { s with
          apps := s.apps ++ [⟨s.nextId, r.appName, []⟩],
          entrypoints :=
            updateEntrypoints
              (s.entrypoints ++ [⟨s.nextId + 1, s.nextId, r.entrypointUrlMatcher, none, none⟩])
              (s.nextId + 1) b.id,
          nextId := s.nextId + 2 },
       [AuditEvent.createApp ⟨s.nextId, r.appName, []⟩,
        AuditEvent.createEntrypoint ⟨s.nextId + 1, s.nextId, r.entrypointUrlMatcher, none, none⟩,
        AuditEvent.updateEntrypoint
          ⟨s.nextId + 1, s.nextId, r.entrypointUrlMatcher, none, none⟩
          (setBundle b.id ⟨s.nextId + 1, s.nextId, r.entrypointUrlMatcher, none, none⟩)],
       lookupTrace r ++
         [StorageCall.validateUrlMatcher r.entrypointUrlMatcher,
          StorageCall.createApp r.appName,
          StorageCall.logOperation (AuditEvent.createApp ⟨s.nextId, r.appName, []⟩),
          StorageCall.createEntrypoint s.nextId r.entrypointUrlMatcher,
          StorageCall.logOperation
            (AuditEvent.createEntrypoint
              ⟨s.nextId + 1, s.nextId, r.entrypointUrlMatcher, none, none⟩),
          StorageCall.updateEntrypoint (s.nextId + 1) b.id,
          StorageCall.logOperation
            (AuditEvent.updateEntrypoint
              ⟨s.nextId + 1, s.nextId, r.entrypointUrlMatcher, none, none⟩
              (setBundle b.id ⟨s.nextId + 1, s.nextId, r.entrypointUrlMatcher, none, none⟩))]⟩ := by
  unfold handler deploy
  rw [hb, ha, he]
  simp [deployDecision, epConflict, deployAppStage, hv, deployEntrypointStage,
    deployUpdateStage, createAppRecord, createEntrypointRecord, noFault]

theorem handler_invalid_case (v : String → Bool) (s : StorageState)
    (r : DeployRequest) (b : Bundle)
    (hb : findLatestByNameTagCombination s.bundles r.bundleNameTagCombination = some b)
    (ha : findOneByIdOrName s.apps r.appName = none)
    (he : findOneByIdOrUrlMatcher s.entrypoints r.entrypointUrlMatcher = none)
    (hv : v r.entrypointUrlMatcher = false) :
    handler v s r =
      ⟨.raised (.invalidUrlMatcher r.entrypointUrlMatcher), s, [],
       lookupTrace r ++ [StorageCall.validateUrlMatcher r.entrypointUrlMatcher]⟩ := by
  unfold handler deploy
  rw [hb, ha, he]
  simp [deployDecision, epConflict, deployAppStage, hv, noFault]

theorem applyBundleUpdate_id (id bid : Nat) (e : Entrypoint) :
    (applyBundleUpdate id bid e).id = e.id := by
  unfold applyBundleUpdate setBundle
  split <;> rfl

theorem applyBundleUpdate_appId (id bid : Nat) (e : Entrypoint) :
    (applyBundleUpdate id bid e).appId = e.appId := by
  unfold applyBundleUpdate setBundle
  split <;> rfl

theorem applyBundleUpdate_self (id bid : Nat) (e : Entrypoint)
    (h : e.id = id) : applyBundleUpdate id bid e = setBundle bid e := by
  simp [applyBundleUpdate, h]

theorem entrypointMatchesRef_same (i aid : Nat) (c : Option Configuration)
    (bd : Option Nat) (ref : String) :
    entrypointMatchesRef ⟨i, aid, ref, c, bd⟩ ref = true := by
  simp [entrypointMatchesRef]

theorem appMatchesRef_same (i : Nat) (dc : Configuration) (ref : String) :
    appMatchesRef ⟨i, ref, dc⟩ ref = true := by
  simp [appMatchesRef]

/-- Inversion: any fault-free execution that responds 204 took one of the
three success paths. -/
theorem handler_success_cases (v : String → Bool) (s : StorageState)
    (r : DeployRequest) (h : (handler v s r).result = .sent 204 none) :
    ∃ b, findLatestByNameTagCombination s.bundles r.bundleNameTagCombination = some b ∧
      ((∃ a e, findOneByIdOrName s.apps r.appName = some a ∧
          findOneByIdOrUrlMatcher s.entrypoints r.entrypointUrlMatcher = some e ∧
          a.id = e.appId) ∨
        (∃ a, findOneByIdOrName s.apps r.appName = some a ∧
          findOneByIdOrUrlMatcher s.entrypoints r.entrypointUrlMatcher = none) ∨
        (findOneByIdOrName s.apps r.appName = none ∧
          findOneByIdOrUrlMatcher s.entrypoints r.entrypointUrlMatcher = none ∧
          v r.entrypointUrlMatcher = true)) := by
  cases hb : findLatestByNameTagCombination s.bundles r.bundleNameTagCombination with
  | none =>
    rw [handler_bundle_none v s r hb] at h
    simp at h
  | some b =>
    refine ⟨b, rfl, ?_⟩
    cases he : findOneByIdOrUrlMatcher s.entrypoints r.entrypointUrlMatcher with
    | some e =>
      cases ha : findOneByIdOrName s.apps r.appName with
      | none =>
        rw [handler_conflict_case v s r b e hb he (by rw [ha]; rfl)] at h
        simp at h
      | some a =>
        by_cases hid : a.id = e.appId
        · exact Or.inl ⟨a, e, rfl, rfl, hid⟩
        · rw [handler_conflict_case v s r b e hb he
            (by rw [ha]; simp [epConflict, hid])] at h
          simp at h
    | none =>
      cases ha : findOneByIdOrName s.apps r.appName with
      | some a => exact Or.inr (Or.inl ⟨a, rfl, rfl⟩)
      | none =>
        cases hv : v r.entrypointUrlMatcher with
        | true => exact Or.inr (Or.inr ⟨rfl, rfl, rfl⟩)
        | false =>
          rw [handler_invalid_case v s r b hb ha he hv] at h
          simp at h

/-- Exhaustive path analysis of the fault-free handler: every execution is
one of the six named outcomes, together with the lookup results that select
the path. -/
theorem handler_shape (v : String → Bool) (s : StorageState) (r : DeployRequest) :
    (findLatestByNameTagCombination s.bundles r.bundleNameTagCombination = none ∧
      handler v s r = outcomeNotFound s r) ∨
    (∃ b e, findLatestByNameTagCombination s.bundles r.bundleNameTagCombination = some b ∧
      findOneByIdOrUrlMatcher s.entrypoints r.entrypointUrlMatcher = some e ∧
      epConflict (findOneByIdOrName s.apps r.appName) (some e) = true ∧
      handler v s r = outcomeConflict s r) ∨
    (∃ b a e, findLatestByNameTagCombination s.bundles r.bundleNameTagCombination = some b ∧
      findOneByIdOrName s.apps r.appName = some a ∧
      findOneByIdOrUrlMatcher s.entrypoints r.entrypointUrlMatcher = some e ∧
      a.id = e.appId ∧ handler v s r = outcomeA s r b e) ∨
    (∃ b a, findLatestByNameTagCombination s.bundles r.bundleNameTagCombination = some b ∧
      findOneByIdOrName s.apps r.appName = some a ∧
      findOneByIdOrUrlMatcher s.entrypoints r.entrypointUrlMatcher = none ∧
      handler v s r = outcomeB s r b a) ∨
    (∃ b, findLatestByNameTagCombination s.bundles r.bundleNameTagCombination = some b ∧
      findOneByIdOrName s.apps r.appName = none ∧
      findOneByIdOrUrlMatcher s.entrypoints r.entrypointUrlMatcher = none ∧
      v r.entrypointUrlMatcher = true ∧ handler v s r = outcomeC s r b) ∨
    (∃ b, findLatestByNameTagCombination s.bundles r.bundleNameTagCombination = some b ∧
      findOneByIdOrName s.apps r.appName = none ∧
      findOneByIdOrUrlMatcher s.entrypoints r.entrypointUrlMatcher = none ∧
      v r.entrypointUrlMatcher = false ∧ handler v s r = outcomeInvalid s r) := by
  cases hb : findLatestByNameTagCombination s.bundles r.bundleNameTagCombination with
  | none => exact Or.inl ⟨rfl, handler_bundle_none v s r hb⟩
  | some b =>
    cases he : findOneByIdOrUrlMatcher s.entrypoints r.entrypointUrlMatcher with
    | some e =>
      cases ha : findOneByIdOrName s.apps r.appName with
      | none =>
        refine Or.inr (Or.inl ⟨b, e, rfl, rfl, rfl, ?_⟩)
        exact handler_conflict_case v s r b e hb he (by rw [ha]; rfl)
      | some a =>
        by_cases hid : a.id = e.appId
        · exact Or.inr (Or.inr (Or.inl ⟨b, a, e, rfl, rfl, rfl, hid,
            handler_caseA v s r b a e hb ha he hid⟩))
        · refine Or.inr (Or.inl ⟨b, e, rfl, rfl, ?_, ?_⟩)
          · simp [epConflict, hid]
          · exact handler_conflict_case v s r b e hb he
              (by rw [ha]; simp [epConflict, hid])
    | none =>
      cases ha : findOneByIdOrName s.apps r.appName with
      | some a =>
        exact Or.inr (Or.inr (Or.inr (Or.inl ⟨b, a, rfl, rfl, rfl,
          handler_caseB v s r b a hb ha he⟩)))
      | none =>
        cases hv : v r.entrypointUrlMatcher with
        | true =>
          exact Or.inr (Or.inr (Or.inr (Or.inr (Or.inl ⟨b, rfl, rfl, rfl, rfl,
            handler_caseC v s r b hb ha he hv⟩))))
        | false =>
          exact Or.inr (Or.inr (Or.inr (Or.inr (Or.inr ⟨b, rfl, rfl, rfl, rfl,
            handler_invalid_case v s r b hb ha he hv⟩))))

/-! ## Claim theorems -/

/-- C2: when the bundle lookup by name:tag combination returns null, the
handler raises `BundleNotFoundError` identifying the missing combination, and
performs no storage mutation at all: the state is returned unchanged (no App
created, no Entrypoint created or updated) and no audit event is emitted. -/
theorem deploy_bundleNotFound_no_mutation (v : String → Bool)
    (s : StorageState) (r : DeployRequest)
    (hb : findLatestByNameTagCombination s.bundles r.bundleNameTagCombination = none) :
    handler v s r =
      ⟨.raised (.bundleNotFound r.bundleNameTagCombination "name:tag combination"),
       s, [], lookupTrace r⟩ :=
  handler_bundle_none v s r hb

/-- Witness for C2 at a concrete input: empty storage, bundle absent. -/
theorem deploy_bundleNotFound_no_mutation_witness :
    findLatestByNameTagCombination wStateEmpty.bundles wReq.bundleNameTagCombination = none ∧
    handler wAccept wStateEmpty wReq =
      ⟨.raised (.bundleNotFound wReq.bundleNameTagCombination "name:tag combination"),
       wStateEmpty, [], lookupTrace wReq⟩ :=
  ⟨rfl, deploy_bundleNotFound_no_mutation wAccept wStateEmpty wReq rfl⟩

/-- C3: when the bundle exists, an entrypoint matching the urlMatcher exists,
and either no app was found or the found app's id differs from the
entrypoint's appId, the handler sends a 409 response directly (it does not
raise) and performs zero storage mutations. -/
theorem deploy_entrypoint_conflict_409 (v : String → Bool) (s : StorageState)
    (r : DeployRequest) (b : Bundle) (e : Entrypoint)
    (hb : findLatestByNameTagCombination s.bundles r.bundleNameTagCombination = some b)
    (he : findOneByIdOrUrlMatcher s.entrypoints r.entrypointUrlMatcher = some e)
    (ha : findOneByIdOrName s.apps r.appName = none ∨
      ∃ a, findOneByIdOrName s.apps r.appName = some a ∧ a.id ≠ e.appId) :
    handler v s r =
      ⟨.sent 409 (some (conflictMessage r.entrypointUrlMatcher r.appName)),
       s, [], lookupTrace r⟩ := by
  apply handler_conflict_case v s r b e hb he
  rcases ha with ha | ⟨a, ha, hne⟩
  · rw [ha]; rfl
  · rw [ha]; simp [epConflict, hne]

/-- Witness for C3 at a concrete input: entrypoint present, app lookup
empty-handed. -/
theorem deploy_entrypoint_conflict_409_witness :
    handler wAccept wStateConflict wReq =
      ⟨.sent 409 (some (conflictMessage wReq.entrypointUrlMatcher wReq.appName)),
       wStateConflict, [], lookupTrace wReq⟩ :=
  deploy_entrypoint_conflict_409 wAccept wStateConflict wReq wBundle
    ⟨3, 4, "acme.example.com", none, none⟩ rfl rfl (Or.inl rfl)

/-- C4, counterexample: with the bundle present, the app absent and a
urlMatcher that fails validation, but a matching entrypoint present, the
handler answers 409 (conflict) — not a validation error — so the claim as
stated (which does not exclude the entrypoint-exists case) is false. -/
theorem deploy_validation_counterexample :
    findLatestByNameTagCombination wStateConflict.bundles
      wReq.bundleNameTagCombination = some wBundle ∧
    findOneByIdOrName wStateConflict.apps wReq.appName = none ∧
    wReject wReq.entrypointUrlMatcher = false ∧
    (handler wReject wStateConflict wReq).result =
      .sent 409 (some (conflictMessage wReq.entrypointUrlMatcher wReq.appName)) ∧
    (handler wReject wStateConflict wReq).result ≠
      .raised (.invalidUrlMatcher wReq.entrypointUrlMatcher) :=
  ⟨rfl, rfl, rfl, rfl, by decide⟩

/-- C4 as amended: when the bundle exists, no app was found, **no entrypoint
was found**, and the urlMatcher fails validation, the handler raises the
validation error and mutates nothing (no App is created); and in every
fault-free execution whatsoever, an app-creation call in the trace is
immediately preceded by the urlMatcher validation call, so a validation
failure can never leave an orphan App behind. -/
theorem deploy_validation_before_create :
    (∀ (v : String → Bool) (s : StorageState) (r : DeployRequest) (b : Bundle),
      findLatestByNameTagCombination s.bundles r.bundleNameTagCombination = some b →
      findOneByIdOrName s.apps r.appName = none →
      findOneByIdOrUrlMatcher s.entrypoints r.entrypointUrlMatcher = none →
      v r.entrypointUrlMatcher = false →
      handler v s r = outcomeInvalid s r) ∧
    (∀ (v : String → Bool) (s : StorageState) (r : DeployRequest) (n : String),
      StorageCall.createApp n ∈ (handler v s r).trace →
      ∃ t1 t2, (handler v s r).trace =
        t1 ++ StorageCall.validateUrlMatcher r.entrypointUrlMatcher ::
          StorageCall.createApp r.appName :: t2) := by
  constructor
  · intro v s r b hb ha he hv
    exact handler_invalid_case v s r b hb ha he hv
  · intro v s r n hmem
    rcases handler_shape v s r with ⟨_, hE⟩ | ⟨b, e, _, _, _, hE⟩ |
      ⟨b, a, e, _, _, _, _, hE⟩ | ⟨b, a, _, _, _, hE⟩ |
      ⟨b, _, _, _, _, hE⟩ | ⟨b, _, _, _, _, hE⟩ <;> rw [hE] at hmem ⊢
    · simp [outcomeNotFound, lookupTrace] at hmem
    · simp [outcomeConflict, lookupTrace] at hmem
    · simp [outcomeA, lookupTrace] at hmem
    · simp [outcomeB, lookupTrace] at hmem
    · exact ⟨lookupTrace r,
        [StorageCall.logOperation (AuditEvent.createApp (createdApp s r)),
         StorageCall.createEntrypoint s.nextId r.entrypointUrlMatcher,
         StorageCall.logOperation (AuditEvent.createEntrypoint (createdEpC s r)),
         StorageCall.updateEntrypoint (s.nextId + 1) b.id,
         StorageCall.logOperation
           (AuditEvent.updateEntrypoint (createdEpC s r)
             (setBundle b.id (createdEpC s r)))], rfl⟩
    · simp [outcomeInvalid, lookupTrace] at hmem

/-- Witness for C4's amended statement at a concrete input: bundle present,
app and entrypoint absent, validator rejecting. -/
theorem deploy_validation_before_create_witness :
    handler wReject wState wReq = outcomeInvalid wState wReq :=
  deploy_validation_before_create.1 wReject wState wReq wBundle rfl rfl rfl rfl

/-- C5: when the bundle exists, no app was found, the urlMatcher is valid and
no entrypoint was found, the handler creates an App with the given name and
empty defaultConfiguration and then creates an Entrypoint owned by that app
(appId = the created app's id) with the given urlMatcher, null configuration
and null bundle reference — in that order, as the trace shows. -/
theorem deploy_creates_app_and_entrypoint (v : String → Bool)
    (s : StorageState) (r : DeployRequest) (b : Bundle)
    (hb : findLatestByNameTagCombination s.bundles r.bundleNameTagCombination = some b)
    (ha : findOneByIdOrName s.apps r.appName = none)
    (he : findOneByIdOrUrlMatcher s.entrypoints r.entrypointUrlMatcher = none)
    (hv : v r.entrypointUrlMatcher = true) :
    ∃ a e,
      a.name = r.appName ∧ a.defaultConfiguration = [] ∧
      e.appId = a.id ∧ e.urlMatcher = r.entrypointUrlMatcher ∧
      e.configuration = none ∧ e.bundleId = none ∧
      (handler v s r).state.apps = s.apps ++ [a] ∧
      (handler v s r).state.entrypoints =
        updateEntrypoints (s.entrypoints ++ [e]) e.id b.id ∧
      (handler v s r).trace =
        lookupTrace r ++
          [StorageCall.validateUrlMatcher r.entrypointUrlMatcher,
           StorageCall.createApp r.appName,
           StorageCall.logOperation (AuditEvent.createApp a),
           StorageCall.createEntrypoint a.id r.entrypointUrlMatcher,
           StorageCall.logOperation (AuditEvent.createEntrypoint e),
           StorageCall.updateEntrypoint e.id b.id,
           StorageCall.logOperation
             (AuditEvent.updateEntrypoint e (setBundle b.id e))] := by
  rw [handler_caseC v s r b hb ha he hv]
  exact ⟨createdApp s r, createdEpC s r, rfl, rfl, rfl, rfl, rfl, rfl, rfl, rfl, rfl⟩

/-- Witness for C5 at a concrete input. -/
theorem deploy_creates_app_and_entrypoint_witness :
    ∃ a e,
      a.name = wReq.appName ∧ a.defaultConfiguration = [] ∧
      e.appId = a.id ∧ e.urlMatcher = wReq.entrypointUrlMatcher ∧
      e.configuration = none ∧ e.bundleId = none ∧
      (handler wAccept wState wReq).state.apps = wState.apps ++ [a] ∧
      (handler wAccept wState wReq).state.entrypoints =
        updateEntrypoints (wState.entrypoints ++ [e]) e.id wBundle.id ∧
      (handler wAccept wState wReq).trace =
        lookupTrace wReq ++
          [StorageCall.validateUrlMatcher wReq.entrypointUrlMatcher,
           StorageCall.createApp wReq.appName,
           StorageCall.logOperation (AuditEvent.createApp a),
           StorageCall.createEntrypoint a.id wReq.entrypointUrlMatcher,
           StorageCall.logOperation (AuditEvent.createEntrypoint e),
           StorageCall.updateEntrypoint e.id wBundle.id,
           StorageCall.logOperation
             (AuditEvent.updateEntrypoint e (setBundle wBundle.id e))] :=
  deploy_creates_app_and_entrypoint wAccept wState wReq wBundle rfl rfl rfl rfl

/-- C6: on every successful (204, empty body) fault-free execution, bundles
are untouched, every pre-existing app survives unchanged, every pre-existing
entrypoint survives with at most its `bundleId` changed, and the entrypoint
resolved by the request's urlMatcher ends with `bundleId` equal to the
resolved bundle's id. -/
theorem deploy_success_updates_only_bundle (v : String → Bool)
    (s : StorageState) (r : DeployRequest)
    (h : (handler v s r).result = .sent 204 none) :
    (handler v s r).state.bundles = s.bundles ∧
    (∀ a ∈ s.apps, a ∈ (handler v s r).state.apps) ∧
    (∀ e0 ∈ s.entrypoints,
      ∃ e1 ∈ (handler v s r).state.entrypoints, sameExceptBundle e0 e1) ∧
    ∃ b, findLatestByNameTagCombination s.bundles r.bundleNameTagCombination = some b ∧
      ∃ ep, findOneByIdOrUrlMatcher (handler v s r).state.entrypoints
          r.entrypointUrlMatcher = some ep ∧
        ep.bundleId = some b.id := by
  rcases handler_success_cases v s r h with
    ⟨b, hb, ⟨a, e, ha, he, hid⟩ | ⟨a, ha, he⟩ | ⟨ha, he, hv⟩⟩
  · rw [handler_caseA v s r b a e hb ha he hid]
    refine ⟨rfl, fun x hx => hx, ?_, b, hb, setBundle b.id e, ?_, rfl⟩
    · intro e0 he0
      exact ⟨applyBundleUpdate e.id b.id e0,
        List.mem_map_of_mem _ he0, sameExceptBundle_applyBundleUpdate _ _ _⟩
    · show findOneByIdOrUrlMatcher (updateEntrypoints s.entrypoints e.id b.id)
        r.entrypointUrlMatcher = some (setBundle b.id e)
      rw [findOneByIdOrUrlMatcher_updateEntrypoints, he, Option.map_some',
        applyBundleUpdate_self _ _ _ rfl]
  · rw [handler_caseB v s r b a hb ha he]
    refine ⟨rfl, fun x hx => hx, ?_, b, hb,
      setBundle b.id (createdEpB s r a), ?_, rfl⟩
    · intro e0 he0
      exact ⟨applyBundleUpdate s.nextId b.id e0,
        List.mem_map_of_mem _ (List.mem_append_left _ he0),
        sameExceptBundle_applyBundleUpdate _ _ _⟩
    · show findOneByIdOrUrlMatcher
        (updateEntrypoints (s.entrypoints ++ [createdEpB s r a]) s.nextId b.id)
        r.entrypointUrlMatcher = some (setBundle b.id (createdEpB s r a))
      rw [findOneByIdOrUrlMatcher_updateEntrypoints,
        findOneByIdOrUrlMatcher_append, he]
      have hsingle : findOneByIdOrUrlMatcher [createdEpB s r a]
          r.entrypointUrlMatcher = some (createdEpB s r a) :=
        List.find?_cons_of_pos _
          (entrypointMatchesRef_same s.nextId a.id none none r.entrypointUrlMatcher)
      rw [hsingle, Option.none_or, Option.map_some',
        applyBundleUpdate_self s.nextId b.id (createdEpB s r a) rfl]
  · rw [handler_caseC v s r b hb ha he hv]
    refine ⟨rfl, fun x hx => List.mem_append_left _ hx, ?_, b, hb,
      setBundle b.id (createdEpC s r), ?_, rfl⟩
    · intro e0 he0
      exact ⟨applyBundleUpdate (s.nextId + 1) b.id e0,
        List.mem_map_of_mem _ (List.mem_append_left _ he0),
        sameExceptBundle_applyBundleUpdate _ _ _⟩
    · show findOneByIdOrUrlMatcher
        (updateEntrypoints (s.entrypoints ++ [createdEpC s r]) (s.nextId + 1) b.id)
        r.entrypointUrlMatcher = some (setBundle b.id (createdEpC s r))
      rw [findOneByIdOrUrlMatcher_updateEntrypoints,
        findOneByIdOrUrlMatcher_append, he]
      have hsingle : findOneByIdOrUrlMatcher [createdEpC s r]
          r.entrypointUrlMatcher = some (createdEpC s r) :=
        List.find?_cons_of_pos _
          (entrypointMatchesRef_same (s.nextId + 1) s.nextId none none
            r.entrypointUrlMatcher)
      rw [hsingle, Option.none_or, Option.map_some',
        applyBundleUpdate_self (s.nextId + 1) b.id (createdEpC s r) rfl]

/-- Witness for C6 at a concrete successful input. -/
theorem deploy_success_updates_only_bundle_witness :
    (handler wAccept wState wReq).state.bundles = wState.bundles ∧
    (∀ a ∈ wState.apps, a ∈ (handler wAccept wState wReq).state.apps) ∧
    (∀ e0 ∈ wState.entrypoints,
      ∃ e1 ∈ (handler wAccept wState wReq).state.entrypoints,
        sameExceptBundle e0 e1) ∧
    ∃ b, findLatestByNameTagCombination wState.bundles
        wReq.bundleNameTagCombination = some b ∧
      ∃ ep, findOneByIdOrUrlMatcher (handler wAccept wState wReq).state.entrypoints
          wReq.entrypointUrlMatcher = some ep ∧
        ep.bundleId = some b.id :=
  deploy_success_updates_only_bundle wAccept wState wReq rfl

/-- C1: if a fault-free call of the handler succeeds, a second call with
identical arguments on the resulting state also succeeds, leaves the storage
state exactly as it was after the first call (so it creates no new App and no
new Entrypoint), and the entrypoint resolved by the urlMatcher still links to
the resolved bundle. -/
theorem deploy_idempotent (v : String → Bool) (s : StorageState)
    (r : DeployRequest) (h : (handler v s r).result = .sent 204 none) :
    (handler v (handler v s r).state r).result = .sent 204 none ∧
    (handler v (handler v s r).state r).state = (handler v s r).state ∧
    ∃ b ep,
      findLatestByNameTagCombination (handler v s r).state.bundles
        r.bundleNameTagCombination = some b ∧
      findOneByIdOrUrlMatcher (handler v (handler v s r).state r).state.entrypoints
        r.entrypointUrlMatcher = some ep ∧
      ep.bundleId = some b.id := by
  rcases handler_success_cases v s r h with
    ⟨b, hb, ⟨a, e, ha, he, hid⟩ | ⟨a, ha, he⟩ | ⟨ha, he, hv⟩⟩
  · -- both app and entrypoint already existed
    have h1 := handler_caseA v s r b a e hb ha he hid
    have hb2 : findLatestByNameTagCombination (handler v s r).state.bundles
        r.bundleNameTagCombination = some b := by rw [h1]; exact hb
    have ha2 : findOneByIdOrName (handler v s r).state.apps r.appName = some a := by
      rw [h1]; exact ha
    have he2 : findOneByIdOrUrlMatcher (handler v s r).state.entrypoints
        r.entrypointUrlMatcher = some (applyBundleUpdate e.id b.id e) := by
      rw [h1]
      show findOneByIdOrUrlMatcher (updateEntrypoints s.entrypoints e.id b.id)
        r.entrypointUrlMatcher = _
      rw [findOneByIdOrUrlMatcher_updateEntrypoints, he, Option.map_some']
    have hid2 : a.id = (applyBundleUpdate e.id b.id e).appId := by
      rw [applyBundleUpdate_appId]; exact hid
    have h2 := handler_caseA v (handler v s r).state r b a
      (applyBundleUpdate e.id b.id e) hb2 ha2 he2 hid2
    have hstate : (handler v (handler v s r).state r).state = (handler v s r).state := by
      rw [h2, h1]
      simp [applyBundleUpdate_id, updateEntrypoints_idem]
    refine ⟨by rw [h2], hstate, b, applyBundleUpdate e.id b.id e, hb2, ?_, ?_⟩
    · rw [hstate]; exact he2
    · rw [applyBundleUpdate_self e.id b.id e rfl]; rfl
  · -- app existed, entrypoint was created by the first call
    have h1 := handler_caseB v s r b a hb ha he
    have hb2 : findLatestByNameTagCombination (handler v s r).state.bundles
        r.bundleNameTagCombination = some b := by rw [h1]; exact hb
    have ha2 : findOneByIdOrName (handler v s r).state.apps r.appName = some a := by
      rw [h1]; exact ha
    have hsingle : findOneByIdOrUrlMatcher [createdEpB s r a]
        r.entrypointUrlMatcher = some (createdEpB s r a) :=
      List.find?_cons_of_pos _
        (entrypointMatchesRef_same s.nextId a.id none none r.entrypointUrlMatcher)
    have he2 : findOneByIdOrUrlMatcher (handler v s r).state.entrypoints
        r.entrypointUrlMatcher =
        some (applyBundleUpdate s.nextId b.id (createdEpB s r a)) := by
      rw [h1]
      show findOneByIdOrUrlMatcher
        (updateEntrypoints (s.entrypoints ++ [createdEpB s r a]) s.nextId b.id)
        r.entrypointUrlMatcher = _
      rw [findOneByIdOrUrlMatcher_updateEntrypoints,
        findOneByIdOrUrlMatcher_append, he, hsingle, Option.none_or,
        Option.map_some']
    have hid2 : a.id = (applyBundleUpdate s.nextId b.id (createdEpB s r a)).appId := by
      rw [applyBundleUpdate_appId]; rfl
    have h2 := handler_caseA v (handler v s r).state r b a
      (applyBundleUpdate s.nextId b.id (createdEpB s r a)) hb2 ha2 he2 hid2
    have hstate : (handler v (handler v s r).state r).state = (handler v s r).state := by
      rw [h2, h1]
      simp [applyBundleUpdate_id, createdEpB, updateEntrypoints_idem]
    refine ⟨by rw [h2], hstate, b,
      applyBundleUpdate s.nextId b.id (createdEpB s r a), hb2, ?_, ?_⟩
    · rw [hstate]; exact he2
    · rw [applyBundleUpdate_self s.nextId b.id (createdEpB s r a) rfl]; rfl
  · -- both app and entrypoint were created by the first call
    have h1 := handler_caseC v s r b hb ha he hv
    have hb2 : findLatestByNameTagCombination (handler v s r).state.bundles
        r.bundleNameTagCombination = some b := by rw [h1]; exact hb
    have hasingle : findOneByIdOrName [createdApp s r] r.appName =
        some (createdApp s r) :=
      List.find?_cons_of_pos _ (appMatchesRef_same s.nextId [] r.appName)
    have ha2 : findOneByIdOrName (handler v s r).state.apps r.appName =
        some (createdApp s r) := by
      rw [h1]
      show findOneByIdOrName (s.apps ++ [createdApp s r]) r.appName = _
      rw [findOneByIdOrName_append, ha, hasingle, Option.none_or]
    have hsingle : findOneByIdOrUrlMatcher [createdEpC s r]
        r.entrypointUrlMatcher = some (createdEpC s r) :=
      List.find?_cons_of_pos _
        (entrypointMatchesRef_same (s.nextId + 1) s.nextId none none
          r.entrypointUrlMatcher)
    have he2 : findOneByIdOrUrlMatcher (handler v s r).state.entrypoints
        r.entrypointUrlMatcher =
        some (applyBundleUpdate (s.nextId + 1) b.id (createdEpC s r)) := by
      rw [h1]
      show findOneByIdOrUrlMatcher
        (updateEntrypoints (s.entrypoints ++ [createdEpC s r]) (s.nextId + 1) b.id)
        r.entrypointUrlMatcher = _
      rw [findOneByIdOrUrlMatcher_updateEntrypoints,
        findOneByIdOrUrlMatcher_append, he, hsingle, Option.none_or,
        Option.map_some']
    have hid2 : (createdApp s r).id =
        (applyBundleUpdate (s.nextId + 1) b.id (createdEpC s r)).appId := by
      rw [applyBundleUpdate_appId]; rfl
    have h2 := handler_caseA v (handler v s r).state r b (createdApp s r)
      (applyBundleUpdate (s.nextId + 1) b.id (createdEpC s r)) hb2 ha2 he2 hid2
    have hstate : (handler v (handler v s r).state r).state = (handler v s r).state := by
      rw [h2, h1]
      simp [applyBundleUpdate_id, createdEpC, updateEntrypoints_idem]
    refine ⟨by rw [h2], hstate, b,
      applyBundleUpdate (s.nextId + 1) b.id (createdEpC s r), hb2, ?_, ?_⟩
    · rw [hstate]; exact he2
    · rw [applyBundleUpdate_self (s.nextId + 1) b.id (createdEpC s r) rfl]; rfl

/-- Witness for C1 at a concrete input whose first call succeeds. -/
theorem deploy_idempotent_witness :
    (handler wAccept (handler wAccept wState wReq).state wReq).result =
      .sent 204 none ∧
    (handler wAccept (handler wAccept wState wReq).state wReq).state =
      (handler wAccept wState wReq).state ∧
    ∃ b ep,
      findLatestByNameTagCombination (handler wAccept wState wReq).state.bundles
        wReq.bundleNameTagCombination = some b ∧
      findOneByIdOrUrlMatcher
        (handler wAccept (handler wAccept wState wReq).state wReq).state.entrypoints
        wReq.entrypointUrlMatcher = some ep ∧
      ep.bundleId = some b.id :=
  deploy_idempotent wAccept wState wReq rfl

/-- C7: in every fault-free execution, the audit events are one-to-one, in
kind and in order, with the storage mutations in the trace; their order is a
subsequence of createApp, createEntrypoint, updateEntrypoint; and every
updateEntrypoint event carries the pre-update snapshot together with the
post-update snapshot (the same record repointed at the resolved bundle). -/
theorem deploy_audit_one_to_one (v : String → Bool) (s : StorageState)
    (r : DeployRequest) :
    (handler v s r).audit.map kindOfEvent =
      (handler v s r).trace.filterMap mutationKindOfCall ∧
    List.Sublist ((handler v s r).audit.map kindOfEvent)
      [AuditKind.app, AuditKind.ep, AuditKind.upd] ∧
    ∀ e0 e1, AuditEvent.updateEntrypoint e0 e1 ∈ (handler v s r).audit →
      ∃ b, findLatestByNameTagCombination s.bundles r.bundleNameTagCombination
          = some b ∧ e1 = setBundle b.id e0 := by
  rcases handler_shape v s r with ⟨_, hE⟩ | ⟨b, e, hb, _, _, hE⟩ |
    ⟨b, a, e, hb, _, _, _, hE⟩ | ⟨b, a, hb, _, _, hE⟩ |
    ⟨b, hb, _, _, _, hE⟩ | ⟨b, hb, _, _, _, hE⟩ <;> rw [hE]
  · refine ⟨by simp [outcomeNotFound, lookupTrace, mutationKindOfCall], ?_, ?_⟩
    · simp [outcomeNotFound]
    · intro e0 e1 hm
      simp [outcomeNotFound] at hm
  · refine ⟨by simp [outcomeConflict, lookupTrace, mutationKindOfCall], ?_, ?_⟩
    · simp [outcomeConflict]
    · intro e0 e1 hm
      simp [outcomeConflict] at hm
  · refine ⟨by simp [outcomeA, lookupTrace, mutationKindOfCall, kindOfEvent], ?_, ?_⟩
    · simp only [outcomeA, List.map_cons, List.map_nil, kindOfEvent]
      decide
    · intro e0 e1 hm
      simp only [outcomeA, List.mem_singleton, AuditEvent.updateEntrypoint.injEq] at hm
      refine ⟨b, hb, ?_⟩
      rw [hm.1]
      exact hm.2
  · refine ⟨by simp [outcomeB, lookupTrace, mutationKindOfCall, kindOfEvent], ?_, ?_⟩
    · simp only [outcomeB, List.map_cons, List.map_nil, kindOfEvent]
      decide
    · intro e0 e1 hm
      simp [outcomeB] at hm
      refine ⟨b, hb, ?_⟩
      rw [hm.1]
      exact hm.2
  · refine ⟨by simp [outcomeC, lookupTrace, mutationKindOfCall, kindOfEvent], ?_, ?_⟩
    · simp only [outcomeC, List.map_cons, List.map_nil, kindOfEvent]
      decide
    · intro e0 e1 hm
      simp [outcomeC] at hm
      refine ⟨b, hb, ?_⟩
      rw [hm.1]
      exact hm.2
  · refine ⟨by simp [outcomeInvalid, lookupTrace, mutationKindOfCall], ?_, ?_⟩
    · simp [outcomeInvalid]
    · intro e0 e1 hm
      simp [outcomeInvalid] at hm

/-- Witness for C7, projecting the audit/mutation correspondence at a
concrete input that performs all three mutations. -/
theorem deploy_audit_one_to_one_witness :
    (handler wAccept wState wReq).audit.map kindOfEvent =
      (handler wAccept wState wReq).trace.filterMap mutationKindOfCall :=
  (deploy_audit_one_to_one wAccept wState wReq).1

/-- C9: the handler calls the urlMatcher validator only on the branch where
the app lookup found nothing; in particular, when the app exists and the
entrypoint does not, the handler creates the entrypoint and completes without
any validation call in its trace. -/
theorem deploy_validate_only_when_app_absent :
    (∀ (v : String → Bool) (s : StorageState) (r : DeployRequest) (m : String),
      StorageCall.validateUrlMatcher m ∈ (handler v s r).trace →
      findOneByIdOrName s.apps r.appName = none) ∧
    (∀ (v : String → Bool) (s : StorageState) (r : DeployRequest)
      (b : Bundle) (a : App),
      findLatestByNameTagCombination s.bundles r.bundleNameTagCombination = some b →
      findOneByIdOrName s.apps r.appName = some a →
      findOneByIdOrUrlMatcher s.entrypoints r.entrypointUrlMatcher = none →
      handler v s r = outcomeB s r b a ∧
      ∀ m, StorageCall.validateUrlMatcher m ∉ (handler v s r).trace) := by
  constructor
  · intro v s r m hm
    rcases handler_shape v s r with ⟨_, hE⟩ | ⟨b, e, _, _, _, hE⟩ |
      ⟨b, a, e, _, _, _, _, hE⟩ | ⟨b, a, _, _, _, hE⟩ |
      ⟨b, _, ha, _, _, hE⟩ | ⟨b, _, ha, _, _, hE⟩
    · rw [hE] at hm
      simp [outcomeNotFound, lookupTrace] at hm
    · rw [hE] at hm
      simp [outcomeConflict, lookupTrace] at hm
    · rw [hE] at hm
      simp [outcomeA, lookupTrace] at hm
    · rw [hE] at hm
      simp [outcomeB, lookupTrace] at hm
    · exact ha
    · exact ha
  · intro v s r b a hb ha he
    have h1 := handler_caseB v s r b a hb ha he
    refine ⟨h1, ?_⟩
    intro m hm
    rw [h1] at hm
    simp [lookupTrace] at hm

/-- Witness for C9: concrete input where the app exists and the entrypoint
does not; no validation call happens. -/
theorem deploy_validate_only_when_app_absent_witness :
    handler wAccept wStateAppOnly wReq =
      outcomeB wStateAppOnly wReq wBundle ⟨5, "acme", []⟩ ∧
    ∀ m, StorageCall.validateUrlMatcher m ∉
      (handler wAccept wStateAppOnly wReq).trace :=
  deploy_validate_only_when_app_absent.2 wAccept wStateAppOnly wReq wBundle
    ⟨5, "acme", []⟩ rfl rfl rfl

/-! ## Fan-out fold lemmas -/

theorem runFanOut_bundleRes (s : StorageState) (r : DeployRequest)
    (acc : FanOutResult) (order : List LookupKind) :
    (order.foldl (runLookup s r) acc).bundleRes =
      if LookupKind.bundle ∈ order
      then some (findLatestByNameTagCombination s.bundles r.bundleNameTagCombination)
      else acc.bundleRes := by
  induction order generalizing acc with
  | nil => simp
  | cons k t ih =>
    simp only [List.foldl_cons, ih]
    cases k <;> by_cases hm : LookupKind.bundle ∈ t <;>
      simp [hm, runLookup, List.mem_cons]

theorem runFanOut_appRes (s : StorageState) (r : DeployRequest)
    (acc : FanOutResult) (order : List LookupKind) :
    (order.foldl (runLookup s r) acc).appRes =
      if LookupKind.app ∈ order
      then some (findOneByIdOrName s.apps r.appName)
      else acc.appRes := by
  induction order generalizing acc with
  | nil => simp
  | cons k t ih =>
    simp only [List.foldl_cons, ih]
    cases k <;> by_cases hm : LookupKind.app ∈ t <;>
      simp [hm, runLookup, List.mem_cons]

theorem runFanOut_entrypointRes (s : StorageState) (r : DeployRequest)
    (acc : FanOutResult) (order : List LookupKind) :
    (order.foldl (runLookup s r) acc).entrypointRes =
      if LookupKind.entrypoint ∈ order
      then some (findOneByIdOrUrlMatcher s.entrypoints r.entrypointUrlMatcher)
      else acc.entrypointRes := by
  induction order generalizing acc with
  | nil => simp
  | cons k t ih =>
    simp only [List.foldl_cons, ih]
    cases k <;> by_cases hm : LookupKind.entrypoint ∈ t <;>
      simp [hm, runLookup, List.mem_cons]

/-- C10: the three initial lookups are independent — completing them in any
order (any permutation, i.e. any interleaving of the parallel fan-out) joins
to the same three results — and the handler is exactly the decision logic
applied to the jointly awaited triple, so all three results are available
before any decision runs. -/
theorem deploy_lookup_fanout_order_invariant (v : String → Bool)
    (s : StorageState) (r : DeployRequest) (order : List LookupKind)
    (hperm : order.Perm [LookupKind.bundle, LookupKind.app, LookupKind.entrypoint]) :
    runFanOut s r order =
      ⟨some (findLatestByNameTagCombination s.bundles r.bundleNameTagCombination),
       some (findOneByIdOrName s.apps r.appName),
       some (findOneByIdOrUrlMatcher s.entrypoints r.entrypointUrlMatcher)⟩ ∧
    handler v s r =
      deployDecision noFault v r s
        (findLatestByNameTagCombination s.bundles r.bundleNameTagCombination)
        (findOneByIdOrName s.apps r.appName)
        (findOneByIdOrUrlMatcher s.entrypoints r.entrypointUrlMatcher) := by
  refine ⟨?_, rfl⟩
  have hmemb : LookupKind.bundle ∈ order := hperm.mem_iff.mpr (by simp)
  have hmema : LookupKind.app ∈ order := hperm.mem_iff.mpr (by simp)
  have hmeme : LookupKind.entrypoint ∈ order := hperm.mem_iff.mpr (by simp)
  have hb' : (runFanOut s r order).bundleRes =
      some (findLatestByNameTagCombination s.bundles r.bundleNameTagCombination) := by
    show (order.foldl (runLookup s r) ⟨none, none, none⟩).bundleRes = _
    rw [runFanOut_bundleRes, if_pos hmemb]
  have ha' : (runFanOut s r order).appRes =
      some (findOneByIdOrName s.apps r.appName) := by
    show (order.foldl (runLookup s r) ⟨none, none, none⟩).appRes = _
    rw [runFanOut_appRes, if_pos hmema]
  have he' : (runFanOut s r order).entrypointRes =
      some (findOneByIdOrUrlMatcher s.entrypoints r.entrypointUrlMatcher) := by
    show (order.foldl (runLookup s r) ⟨none, none, none⟩).entrypointRes = _
    rw [runFanOut_entrypointRes, if_pos hmeme]
  cases hR : runFanOut s r order with
  | mk x y z =>
    rw [hR] at hb' ha' he'
    rw [FanOutResult.mk.injEq]
    exact ⟨hb', ha', he'⟩

/-- Witness for C10 at a concrete input and a nontrivial completion order. -/
theorem deploy_lookup_fanout_order_invariant_witness :
    runFanOut wState wReq
        [LookupKind.entrypoint, LookupKind.bundle, LookupKind.app] =
      ⟨some (findLatestByNameTagCombination wState.bundles wReq.bundleNameTagCombination),
       some (findOneByIdOrName wState.apps wReq.appName),
       some (findOneByIdOrUrlMatcher wState.entrypoints wReq.entrypointUrlMatcher)⟩ ∧
    handler wAccept wState wReq =
      deployDecision noFault wAccept wReq wState
        (findLatestByNameTagCombination wState.bundles wReq.bundleNameTagCombination)
        (findOneByIdOrName wState.apps wReq.appName)
        (findOneByIdOrUrlMatcher wState.entrypoints wReq.entrypointUrlMatcher) :=
  deploy_lookup_fanout_order_invariant wAccept wState wReq
    [LookupKind.entrypoint, LookupKind.bundle, LookupKind.app] (by decide)

/-! ## Per-stage lemmas for executions under an arbitrary fault oracle -/

theorem updStage_eq_fault1 (F : FaultOracle) (b : Bundle) (e : Entrypoint)
    (s : StorageState) (au : List AuditEvent) (tr : List StorageCall)
    (f : Nat) (hF : F .updateEntrypointCall = some f) :
    deployUpdateStage F b e s au tr = ⟨.raised (.collaboratorFault f), s, au, tr⟩ := by
  simp only [deployUpdateStage, hF]

theorem updStage_eq_fault2 (F : FaultOracle) (b : Bundle) (e : Entrypoint)
    (s : StorageState) (au : List AuditEvent) (tr : List StorageCall)
    (f : Nat) (hF : F .updateEntrypointCall = none)
    (hF2 : F .logUpdateEntrypoint = some f) :
    deployUpdateStage F b e s au tr =
      ⟨.raised (.collaboratorFault f),
       { s with entrypoints := updateEntrypoints s.entrypoints e.id b.id },
       au, tr ++ [StorageCall.updateEntrypoint e.id b.id]⟩ := by
  simp only [deployUpdateStage, hF, hF2]

theorem updStage_eq_ok (F : FaultOracle) (b : Bundle) (e : Entrypoint)
    (s : StorageState) (au : List AuditEvent) (tr : List StorageCall)
    (hF : F .updateEntrypointCall = none) (hF2 : F .logUpdateEntrypoint = none) :
    deployUpdateStage F b e s au tr =
      ⟨.sent 204 none,
       { s with entrypoints := updateEntrypoints s.entrypoints e.id b.id },
       au ++ [AuditEvent.updateEntrypoint e (setBundle b.id e)],
       tr ++ [StorageCall.updateEntrypoint e.id b.id,
              StorageCall.logOperation
                (AuditEvent.updateEntrypoint e (setBundle b.id e))]⟩ := by
  simp only [deployUpdateStage, hF, hF2]
  rw [List.append_assoc]
  rfl

theorem updStage_spec (F : FaultOracle) (b : Bundle) (e : Entrypoint)
    (s : StorageState) (au : List AuditEvent) (tr : List StorageCall) :
    (∃ l, (deployUpdateStage F b e s au tr).state.apps = s.apps ++ l) ∧
    (∀ e0 ∈ s.entrypoints,
      ∃ e1 ∈ (deployUpdateStage F b e s au tr).state.entrypoints,
        sameExceptBundle e0 e1) ∧
    (deployUpdateStage F b e s au tr).state.bundles = s.bundles ∧
    ((deployUpdateStage F b e s au tr).result = .sent 204 none ∨
      ∃ c f, F c = some f ∧
        (deployUpdateStage F b e s au tr).result = .raised (.collaboratorFault f)) ∧
    ∃ ext, (deployUpdateStage F b e s au tr).trace = tr ++ ext ∧
      (∀ c ∈ ext, isCreateAppCall c = false) ∧
      (∀ c ∈ ext, isCreateEpCall c = false) ∧
      ext.countP isUpdateEpCall ≤ 1 := by
  cases hF : F .updateEntrypointCall with
  | some f =>
    rw [updStage_eq_fault1 F b e s au tr f hF]
    exact ⟨⟨[], (List.append_nil _).symm⟩,
      fun e0 he0 => ⟨e0, he0, sameExceptBundle_refl e0⟩, rfl,
      Or.inr ⟨.updateEntrypointCall, f, hF, rfl⟩,
      [], (List.append_nil _).symm, by simp, by simp, by simp⟩
  | none =>
    cases hF2 : F .logUpdateEntrypoint with
    | some f =>
      rw [updStage_eq_fault2 F b e s au tr f hF hF2]
      refine ⟨⟨[], (List.append_nil _).symm⟩, ?_, rfl,
        Or.inr ⟨.logUpdateEntrypoint, f, hF2, rfl⟩,
        [StorageCall.updateEntrypoint e.id b.id], rfl, ?_, ?_, ?_⟩
      · intro e0 he0
        exact ⟨applyBundleUpdate e.id b.id e0, List.mem_map_of_mem _ he0,
          sameExceptBundle_applyBundleUpdate _ _ _⟩
      · intro c hc
        simp only [List.mem_singleton] at hc
        rw [hc]; rfl
      · intro c hc
        simp only [List.mem_singleton] at hc
        rw [hc]; rfl
      · simp [isUpdateEpCall]
    | none =>
      rw [updStage_eq_ok F b e s au tr hF hF2]
      refine ⟨⟨[], (List.append_nil _).symm⟩, ?_, rfl, Or.inl rfl,
        [StorageCall.updateEntrypoint e.id b.id,
         StorageCall.logOperation
           (AuditEvent.updateEntrypoint e (setBundle b.id e))],
        rfl, ?_, ?_, ?_⟩
      · intro e0 he0
        exact ⟨applyBundleUpdate e.id b.id e0, List.mem_map_of_mem _ he0,
          sameExceptBundle_applyBundleUpdate _ _ _⟩
      · intro c hc
        simp only [List.mem_cons, List.not_mem_nil, or_false] at hc
        rcases hc with rfl | rfl <;> rfl
      · intro c hc
        simp only [List.mem_cons, List.not_mem_nil, or_false] at hc
        rcases hc with rfl | rfl <;> rfl
      · simp [isUpdateEpCall]

theorem epStage_eq_fault1 (F : FaultOracle) (r : DeployRequest) (b : Bundle)
    (app : App) (s : StorageState) (au : List AuditEvent)
    (tr : List StorageCall) (f : Nat) (hF : F .createEntrypointCall = some f) :
    deployEntrypointStage F r b app none s au tr =
      ⟨.raised (.collaboratorFault f), s, au, tr⟩ := by
  simp only [deployEntrypointStage, hF]

theorem epStage_eq_fault2 (F : FaultOracle) (r : DeployRequest) (b : Bundle)
    (app : App) (s : StorageState) (au : List AuditEvent)
    (tr : List StorageCall) (f : Nat) (hF : F .createEntrypointCall = none)
    (hF2 : F .logCreateEntrypoint = some f) :
    deployEntrypointStage F r b app none s au tr =
      ⟨.raised (.collaboratorFault f),
       { s with entrypoints := s.entrypoints ++ [createdEpB s r app],
                nextId := s.nextId + 1 },
       au, tr ++ [StorageCall.createEntrypoint app.id r.entrypointUrlMatcher]⟩ := by
  simp only [deployEntrypointStage, hF, hF2, createEntrypointRecord, createdEpB]

theorem epStage_eq_create (F : FaultOracle) (r : DeployRequest) (b : Bundle)
    (app : App) (s : StorageState) (au : List AuditEvent)
    (tr : List StorageCall) (hF : F .createEntrypointCall = none)
    (hF2 : F .logCreateEntrypoint = none) :
    deployEntrypointStage F r b app none s au tr =
      deployUpdateStage F b (createdEpB s r app)
        { s with entrypoints := s.entrypoints ++ [createdEpB s r app],
                 nextId := s.nextId + 1 }
        (au ++ [AuditEvent.createEntrypoint (createdEpB s r app)])
        (tr ++ [StorageCall.createEntrypoint app.id r.entrypointUrlMatcher,
                StorageCall.logOperation
                  (AuditEvent.createEntrypoint (createdEpB s r app))]) := by
  simp only [deployEntrypointStage, hF, hF2, createEntrypointRecord, createdEpB,
    List.append_assoc]
  rfl

theorem epStage_spec (F : FaultOracle) (r : DeployRequest) (b : Bundle)
    (app : App) (eOpt : Option Entrypoint) (s : StorageState)
    (au : List AuditEvent) (tr : List StorageCall) :
    (∃ l, (deployEntrypointStage F r b app eOpt s au tr).state.apps = s.apps ++ l) ∧
    (∀ e0 ∈ s.entrypoints,
      ∃ e1 ∈ (deployEntrypointStage F r b app eOpt s au tr).state.entrypoints,
        sameExceptBundle e0 e1) ∧
    (deployEntrypointStage F r b app eOpt s au tr).state.bundles = s.bundles ∧
    ((deployEntrypointStage F r b app eOpt s au tr).result = .sent 204 none ∨
      ∃ c f, F c = some f ∧
        (deployEntrypointStage F r b app eOpt s au tr).result =
          .raised (.collaboratorFault f)) ∧
    ∃ ext, (deployEntrypointStage F r b app eOpt s au tr).trace = tr ++ ext ∧
      (∀ c ∈ ext, isCreateAppCall c = false) ∧
      ext.countP isCreateEpCall ≤ 1 ∧
      ext.countP isUpdateEpCall ≤ 1 ∧
      (∀ aid um, StorageCall.createEntrypoint aid um ∈ ext →
        um = r.entrypointUrlMatcher ∧
        ∃ e1 ∈ (deployEntrypointStage F r b app eOpt s au tr).state.entrypoints,
          e1.appId = aid ∧ e1.urlMatcher = um) := by
  cases eOpt with
  | some e =>
    obtain ⟨h1, h2, h3, h4, ext, hext, hnoapp, hnoep, hupd⟩ :=
      updStage_spec F b e s au tr
    have h0 : ext.countP isCreateEpCall = 0 :=
      List.countP_eq_zero.mpr (fun c hc => by
        rw [hnoep c hc]; exact Bool.false_ne_true)
    refine ⟨h1, h2, h3, h4, ext, hext, hnoapp, ?_, hupd, ?_⟩
    · rw [h0]; exact Nat.zero_le 1
    · intro aid um hm
      simpa [isCreateEpCall] using hnoep _ hm
  | none =>
    cases hF : F .createEntrypointCall with
    | some f =>
      rw [epStage_eq_fault1 F r b app s au tr f hF]
      exact ⟨⟨[], (List.append_nil _).symm⟩,
        fun e0 he0 => ⟨e0, he0, sameExceptBundle_refl e0⟩, rfl,
        Or.inr ⟨.createEntrypointCall, f, hF, rfl⟩,
        [], (List.append_nil _).symm, by simp, by simp, by simp, by simp⟩
    | none =>
      cases hF2 : F .logCreateEntrypoint with
      | some f =>
        rw [epStage_eq_fault2 F r b app s au tr f hF hF2]
        refine ⟨⟨[], (List.append_nil _).symm⟩, ?_, rfl,
          Or.inr ⟨.logCreateEntrypoint, f, hF2, rfl⟩,
          [StorageCall.createEntrypoint app.id r.entrypointUrlMatcher],
          rfl, ?_, ?_, ?_, ?_⟩
        · intro e0 he0
          exact ⟨e0, List.mem_append_left _ he0, sameExceptBundle_refl e0⟩
        · intro c hc
          simp only [List.mem_singleton] at hc
          rw [hc]; rfl
        · simp [isCreateEpCall]
        · simp [isUpdateEpCall]
        · intro aid um hm
          simp only [List.mem_singleton, StorageCall.createEntrypoint.injEq] at hm
          refine ⟨hm.2, createdEpB s r app,
            List.mem_append_right _ (List.mem_singleton.mpr rfl), ?_, ?_⟩
          · exact hm.1.symm
          · exact hm.2.symm
      | none =>
        rw [epStage_eq_create F r b app s au tr hF hF2]
        obtain ⟨⟨l, hl⟩, hpres, hbund, hres, ext', hext', hnoapp', hnoep', hupd'⟩ :=
          updStage_spec F b (createdEpB s r app)
            { s with entrypoints := s.entrypoints ++ [createdEpB s r app],
                     nextId := s.nextId + 1 }
            (au ++ [AuditEvent.createEntrypoint (createdEpB s r app)])
            (tr ++ [StorageCall.createEntrypoint app.id r.entrypointUrlMatcher,
                    StorageCall.logOperation
                      (AuditEvent.createEntrypoint (createdEpB s r app))])
        have h0 : ext'.countP isCreateEpCall = 0 :=
          List.countP_eq_zero.mpr (fun c hc => by
            rw [hnoep' c hc]; exact Bool.false_ne_true)
        refine ⟨⟨l, hl⟩, ?_, hbund, hres,
          [StorageCall.createEntrypoint app.id r.entrypointUrlMatcher,
           StorageCall.logOperation
             (AuditEvent.createEntrypoint (createdEpB s r app))] ++ ext',
          hext'.trans (List.append_assoc _ _ _), ?_, ?_, ?_, ?_⟩
        · intro e0 he0
          exact hpres e0 (List.mem_append_left _ he0)
        · intro c hc
          simp only [List.mem_append, List.mem_cons, List.not_mem_nil,
            or_false] at hc
          rcases hc with (rfl | rfl) | hc
          · rfl
          · rfl
          · exact hnoapp' c hc
        · rw [List.countP_append, h0]
          simp [List.countP_cons, isCreateEpCall]
        · rw [List.countP_append]
          have h1' : List.countP isUpdateEpCall
              [StorageCall.createEntrypoint app.id r.entrypointUrlMatcher,
               StorageCall.logOperation
                 (AuditEvent.createEntrypoint (createdEpB s r app))] = 0 := rfl
          rw [h1']
          simpa using hupd'
        · intro aid um hm
          simp only [List.mem_append, List.mem_cons, List.not_mem_nil,
            or_false] at hm
          rcases hm with (hm | hm) | hm
          · rw [StorageCall.createEntrypoint.injEq] at hm
            obtain ⟨e1, he1, hsame⟩ := hpres (createdEpB s r app)
              (List.mem_append_right _ (List.mem_singleton.mpr rfl))
            refine ⟨hm.2, e1, he1, ?_, ?_⟩
            · rw [hsame.2.1]; exact hm.1.symm
            · rw [hsame.2.2.1]; exact hm.2.symm
          · exact absurd hm (by simp)
          · simpa [isCreateEpCall] using hnoep' _ hm

theorem appStage_eq_invalid (F : FaultOracle) (valid : String → Bool)
    (r : DeployRequest) (b : Bundle) (eOpt : Option Entrypoint)
    (s : StorageState) (au : List AuditEvent) (tr : List StorageCall)
    (hv : valid r.entrypointUrlMatcher = false) :
    deployAppStage F valid r b none eOpt s au tr =
      ⟨.raised (.invalidUrlMatcher r.entrypointUrlMatcher), s, au,
       tr ++ [StorageCall.validateUrlMatcher r.entrypointUrlMatcher]⟩ := by
  simp only [deployAppStage, hv, Bool.false_eq_true, if_false]

theorem appStage_eq_fault1 (F : FaultOracle) (valid : String → Bool)
    (r : DeployRequest) (b : Bundle) (eOpt : Option Entrypoint)
    (s : StorageState) (au : List AuditEvent) (tr : List StorageCall)
    (f : Nat) (hv : valid r.entrypointUrlMatcher = true)
    (hF : F .createAppCall = some f) :
    deployAppStage F valid r b none eOpt s au tr =
      ⟨.raised (.collaboratorFault f), s, au,
       tr ++ [StorageCall.validateUrlMatcher r.entrypointUrlMatcher]⟩ := by
  simp only [deployAppStage, hv, if_true, hF]

theorem appStage_eq_fault2 (F : FaultOracle) (valid : String → Bool)
    (r : DeployRequest) (b : Bundle) (eOpt : Option Entrypoint)
    (s : StorageState) (au : List AuditEvent) (tr : List StorageCall)
    (f : Nat) (hv : valid r.entrypointUrlMatcher = true)
    (hF : F .createAppCall = none) (hF2 : F .logCreateApp = some f) :
    deployAppStage F valid r b none eOpt s au tr =
      ⟨.raised (.collaboratorFault f),
       { s with apps := s.apps ++ [createdApp s r], nextId := s.nextId + 1 },
       au, tr ++ [StorageCall.validateUrlMatcher r.entrypointUrlMatcher,
                  StorageCall.createApp r.appName]⟩ := by
  simp only [deployAppStage, hv, if_true, hF, hF2, createAppRecord, createdApp,
    List.append_assoc]
  rfl

theorem appStage_eq_create (F : FaultOracle) (valid : String → Bool)
    (r : DeployRequest) (b : Bundle) (eOpt : Option Entrypoint)
    (s : StorageState) (au : List AuditEvent) (tr : List StorageCall)
    (hv : valid r.entrypointUrlMatcher = true) (hF : F .createAppCall = none)
    (hF2 : F .logCreateApp = none) :
    deployAppStage F valid r b none eOpt s au tr =
      deployEntrypointStage F r b (createdApp s r) eOpt
        { s with apps := s.apps ++ [createdApp s r], nextId := s.nextId + 1 }
        (au ++ [AuditEvent.createApp (createdApp s r)])
        (tr ++ [StorageCall.validateUrlMatcher r.entrypointUrlMatcher,
                StorageCall.createApp r.appName,
                StorageCall.logOperation (AuditEvent.createApp (createdApp s r))]) := by
  simp only [deployAppStage, hv, if_true, hF, hF2, createAppRecord, createdApp,
    List.append_assoc]
  rfl

theorem appStage_spec (F : FaultOracle) (valid : String → Bool)
    (r : DeployRequest) (b : Bundle) (aOpt : Option App)
    (eOpt : Option Entrypoint) (s : StorageState) (au : List AuditEvent)
    (tr : List StorageCall) :
    (∃ l, (deployAppStage F valid r b aOpt eOpt s au tr).state.apps = s.apps ++ l) ∧
    (∀ e0 ∈ s.entrypoints,
      ∃ e1 ∈ (deployAppStage F valid r b aOpt eOpt s au tr).state.entrypoints,
        sameExceptBundle e0 e1) ∧
    (deployAppStage F valid r b aOpt eOpt s au tr).state.bundles = s.bundles ∧
    ((deployAppStage F valid r b aOpt eOpt s au tr).result = .sent 204 none ∨
      (deployAppStage F valid r b aOpt eOpt s au tr).result =
        .raised (.invalidUrlMatcher r.entrypointUrlMatcher) ∨
      ∃ c f, F c = some f ∧
        (deployAppStage F valid r b aOpt eOpt s au tr).result =
          .raised (.collaboratorFault f)) ∧
    ∃ ext, (deployAppStage F valid r b aOpt eOpt s au tr).trace = tr ++ ext ∧
      ext.countP isCreateAppCall ≤ 1 ∧
      ext.countP isCreateEpCall ≤ 1 ∧
      ext.countP isUpdateEpCall ≤ 1 ∧
      (∀ n, StorageCall.createApp n ∈ ext → n = r.appName ∧
        ∃ a1 ∈ (deployAppStage F valid r b aOpt eOpt s au tr).state.apps,
          a1.name = n) ∧
      (∀ aid um, StorageCall.createEntrypoint aid um ∈ ext →
        um = r.entrypointUrlMatcher ∧
        ∃ e1 ∈ (deployAppStage F valid r b aOpt eOpt s au tr).state.entrypoints,
          e1.appId = aid ∧ e1.urlMatcher = um) := by
  cases aOpt with
  | some app =>
    obtain ⟨h1, h2, h3, h4, ext, hext, hnoapp, hep1, hupd1, hepfact⟩ :=
      epStage_spec F r b app eOpt s au tr
    have h0 : ext.countP isCreateAppCall = 0 :=
      List.countP_eq_zero.mpr (fun c hc => by
        rw [hnoapp c hc]; exact Bool.false_ne_true)
    refine ⟨h1, h2, h3, ?_, ext, hext, ?_, hep1, hupd1, ?_, hepfact⟩
    · rcases h4 with h4 | h4
      · exact Or.inl h4
      · exact Or.inr (Or.inr h4)
    · rw [h0]; exact Nat.zero_le 1
    · intro n hn
      simpa [isCreateAppCall] using hnoapp _ hn
  | none =>
    cases hv : valid r.entrypointUrlMatcher with
    | false =>
      rw [appStage_eq_invalid F valid r b eOpt s au tr hv]
      refine ⟨⟨[], (List.append_nil _).symm⟩,
        fun e0 he0 => ⟨e0, he0, sameExceptBundle_refl e0⟩, rfl,
        Or.inr (Or.inl rfl),
        [StorageCall.validateUrlMatcher r.entrypointUrlMatcher],
        rfl, ?_, ?_, ?_, ?_, ?_⟩
      · simp [isCreateAppCall]
      · simp [isCreateEpCall]
      · simp [isUpdateEpCall]
      · intro n hn
        simp at hn
      · intro aid um hm
        simp at hm
    | true =>
      cases hF : F .createAppCall with
      | some f =>
        rw [appStage_eq_fault1 F valid r b eOpt s au tr f hv hF]
        refine ⟨⟨[], (List.append_nil _).symm⟩,
          fun e0 he0 => ⟨e0, he0, sameExceptBundle_refl e0⟩, rfl,
          Or.inr (Or.inr ⟨.createAppCall, f, hF, rfl⟩),
          [StorageCall.validateUrlMatcher r.entrypointUrlMatcher],
          rfl, ?_, ?_, ?_, ?_, ?_⟩
        · simp [isCreateAppCall]
        · simp [isCreateEpCall]
        · simp [isUpdateEpCall]
        · intro n hn
          simp at hn
        · intro aid um hm
          simp at hm
      | none =>
        cases hF2 : F .logCreateApp with
        | some f =>
          rw [appStage_eq_fault2 F valid r b eOpt s au tr f hv hF hF2]
          refine ⟨⟨[createdApp s r], rfl⟩,
            fun e0 he0 => ⟨e0, he0, sameExceptBundle_refl e0⟩, rfl,
            Or.inr (Or.inr ⟨.logCreateApp, f, hF2, rfl⟩),
            [StorageCall.validateUrlMatcher r.entrypointUrlMatcher,
             StorageCall.createApp r.appName],
            rfl, ?_, ?_, ?_, ?_, ?_⟩
          · simp [List.countP_cons, isCreateAppCall]
          · simp [List.countP_cons, isCreateEpCall]
          · simp [List.countP_cons, isUpdateEpCall]
          · intro n hn
            simp only [List.mem_cons, List.not_mem_nil, or_false] at hn
            rcases hn with hn | hn
            · exact absurd hn (by simp)
            · rw [StorageCall.createApp.injEq] at hn
              exact ⟨hn, createdApp s r,
                List.mem_append_right _ (List.mem_singleton.mpr rfl), hn.symm⟩
          · intro aid um hm
            simp at hm
        | none =>
          rw [appStage_eq_create F valid r b eOpt s au tr hv hF hF2]
          obtain ⟨⟨l, hl⟩, hpres, hbund, hres, ext', hext', hnoapp', hep1',
            hupd1', hepfact'⟩ :=
            epStage_spec F r b (createdApp s r) eOpt
              { s with apps := s.apps ++ [createdApp s r], nextId := s.nextId + 1 }
              (au ++ [AuditEvent.createApp (createdApp s r)])
              (tr ++ [StorageCall.validateUrlMatcher r.entrypointUrlMatcher,
                      StorageCall.createApp r.appName,
                      StorageCall.logOperation
                        (AuditEvent.createApp (createdApp s r))])
          have h0 : ext'.countP isCreateAppCall = 0 :=
            List.countP_eq_zero.mpr (fun c hc => by
              rw [hnoapp' c hc]; exact Bool.false_ne_true)
          refine ⟨⟨[createdApp s r] ++ l, hl.trans (List.append_assoc _ _ _)⟩,
            ?_, hbund, ?_,
            [StorageCall.validateUrlMatcher r.entrypointUrlMatcher,
             StorageCall.createApp r.appName,
             StorageCall.logOperation (AuditEvent.createApp (createdApp s r))] ++ ext',
            hext'.trans (List.append_assoc _ _ _), ?_, ?_, ?_, ?_, ?_⟩
          · intro e0 he0
            exact hpres e0 he0
          · rcases hres with h | h
            · exact Or.inl h
            · exact Or.inr (Or.inr h)
          · rw [List.countP_append, h0]
            simp [List.countP_cons, isCreateAppCall]
          · rw [List.countP_append]
            have hz : List.countP isCreateEpCall
                [StorageCall.validateUrlMatcher r.entrypointUrlMatcher,
                 StorageCall.createApp r.appName,
                 StorageCall.logOperation
                   (AuditEvent.createApp (createdApp s r))] = 0 := rfl
            rw [hz]
            simpa using hep1'
          · rw [List.countP_append]
            have hz : List.countP isUpdateEpCall
                [StorageCall.validateUrlMatcher r.entrypointUrlMatcher,
                 StorageCall.createApp r.appName,
                 StorageCall.logOperation
                   (AuditEvent.createApp (createdApp s r))] = 0 := rfl
            rw [hz]
            simpa using hupd1'
          · intro n hn
            simp only [List.mem_append, List.mem_cons, List.not_mem_nil,
              or_false] at hn
            rcases hn with (hn | hn | hn) | hn
            · exact absurd hn (by simp)
            · rw [StorageCall.createApp.injEq] at hn
              refine ⟨hn, createdApp s r, ?_, hn.symm⟩
              rw [hl]
              exact List.mem_append_left _
                (List.mem_append_right _ (List.mem_singleton.mpr rfl))
            · exact absurd hn (by simp)
            · simpa [isCreateAppCall] using hnoapp' _ hn
          · intro aid um hm
            simp only [List.mem_append, List.mem_cons, List.not_mem_nil,
              or_false] at hm
            rcases hm with (hm | hm | hm) | hm
            · exact absurd hm (by simp)
            · exact absurd hm (by simp)
            · exact absurd hm (by simp)
            · exact hepfact' aid um hm

/-- C8: under an arbitrary fault oracle (any storage or audit-log call after
the lookups may raise), the handler never rolls records back — apps are only
ever appended, every pre-existing entrypoint survives with at most its
`bundleId` changed, bundles are untouched — the result is one of exactly 204,
the 409 conflict, `BundleNotFound`, the urlMatcher validation error, or a
collaborator fault propagated unchanged (the very value the oracle raised);
and no call is retried: each mutation call appears at most once in the trace,
while every creation recorded in the trace is still present in the final
state. -/
theorem deploy_no_rollback_no_retry (F : FaultOracle) (v : String → Bool)
    (s : StorageState) (r : DeployRequest) :
    (∃ l, (deploy F v s r).state.apps = s.apps ++ l) ∧
    (∀ e0 ∈ s.entrypoints,
      ∃ e1 ∈ (deploy F v s r).state.entrypoints, sameExceptBundle e0 e1) ∧
    (deploy F v s r).state.bundles = s.bundles ∧
    ((deploy F v s r).result = .sent 204 none ∨
      (deploy F v s r).result =
        .sent 409 (some (conflictMessage r.entrypointUrlMatcher r.appName)) ∨
      (deploy F v s r).result =
        .raised (.bundleNotFound r.bundleNameTagCombination "name:tag combination") ∨
      (deploy F v s r).result = .raised (.invalidUrlMatcher r.entrypointUrlMatcher) ∨
      ∃ c f, F c = some f ∧
        (deploy F v s r).result = .raised (.collaboratorFault f)) ∧
    (deploy F v s r).trace.countP isCreateAppCall ≤ 1 ∧
    (deploy F v s r).trace.countP isCreateEpCall ≤ 1 ∧
    (deploy F v s r).trace.countP isUpdateEpCall ≤ 1 ∧
    (∀ n, StorageCall.createApp n ∈ (deploy F v s r).trace →
      n = r.appName ∧ ∃ a1 ∈ (deploy F v s r).state.apps, a1.name = n) ∧
    (∀ aid um, StorageCall.createEntrypoint aid um ∈ (deploy F v s r).trace →
      um = r.entrypointUrlMatcher ∧
      ∃ e1 ∈ (deploy F v s r).state.entrypoints,
        e1.appId = aid ∧ e1.urlMatcher = um) := by
  cases hb : findLatestByNameTagCombination s.bundles r.bundleNameTagCombination with
  | none =>
    have hE : deploy F v s r = outcomeNotFound s r := by
      unfold deploy
      rw [hb]
      rfl
    rw [hE]
    refine ⟨⟨[], (List.append_nil _).symm⟩,
      fun e0 he0 => ⟨e0, he0, sameExceptBundle_refl e0⟩, rfl,
      Or.inr (Or.inr (Or.inl rfl)), ?_, ?_, ?_, ?_, ?_⟩
    · simp [outcomeNotFound, lookupTrace, List.countP_cons, isCreateAppCall]
    · simp [outcomeNotFound, lookupTrace, List.countP_cons, isCreateEpCall]
    · simp [outcomeNotFound, lookupTrace, List.countP_cons, isUpdateEpCall]
    · intro n hn
      simp [outcomeNotFound, lookupTrace] at hn
    · intro aid um hm
      simp [outcomeNotFound, lookupTrace] at hm
  | some b =>
    by_cases hc : epConflict (findOneByIdOrName s.apps r.appName)
        (findOneByIdOrUrlMatcher s.entrypoints r.entrypointUrlMatcher) = true
    · have hE : deploy F v s r = outcomeConflict s r := by
        unfold deploy
        rw [hb]
        unfold deployDecision
        rw [hc]
        rfl
      rw [hE]
      refine ⟨⟨[], (List.append_nil _).symm⟩,
        fun e0 he0 => ⟨e0, he0, sameExceptBundle_refl e0⟩, rfl,
        Or.inr (Or.inl rfl), ?_, ?_, ?_, ?_, ?_⟩
      · simp [outcomeConflict, lookupTrace, List.countP_cons, isCreateAppCall]
      · simp [outcomeConflict, lookupTrace, List.countP_cons, isCreateEpCall]
      · simp [outcomeConflict, lookupTrace, List.countP_cons, isUpdateEpCall]
      · intro n hn
        simp [outcomeConflict, lookupTrace] at hn
      · intro aid um hm
        simp [outcomeConflict, lookupTrace] at hm
    · have hE : deploy F v s r =
          deployAppStage F v r b (findOneByIdOrName s.apps r.appName)
            (findOneByIdOrUrlMatcher s.entrypoints r.entrypointUrlMatcher)
            s [] (lookupTrace r) := by
        unfold deploy
        rw [hb]
        unfold deployDecision
        rw [Bool.not_eq_true] at hc
        rw [hc]
        rfl
      rw [hE]
      obtain ⟨⟨l, hl⟩, hpres, hbund, hres, ext, hext, hca, hce, hcu, hfa, hfe⟩ :=
        appStage_spec F v r b (findOneByIdOrName s.apps r.appName)
          (findOneByIdOrUrlMatcher s.entrypoints r.entrypointUrlMatcher)
          s [] (lookupTrace r)
      refine ⟨⟨l, hl⟩, hpres, hbund, ?_, ?_, ?_, ?_, ?_, ?_⟩
      · rcases hres with h | h | h
        · exact Or.inl h
        · exact Or.inr (Or.inr (Or.inr (Or.inl h)))
        · exact Or.inr (Or.inr (Or.inr (Or.inr h)))
      · rw [hext, List.countP_append]
        have hz : (lookupTrace r).countP isCreateAppCall = 0 := rfl
        rw [hz]
        simpa using hca
      · rw [hext, List.countP_append]
        have hz : (lookupTrace r).countP isCreateEpCall = 0 := rfl
        rw [hz]
        simpa using hce
      · rw [hext, List.countP_append]
        have hz : (lookupTrace r).countP isUpdateEpCall = 0 := rfl
        rw [hz]
        simpa using hcu
      · intro n hn
        rw [hext] at hn
        rcases List.mem_append.mp hn with hn | hn
        · simp [lookupTrace] at hn
        · exact hfa n hn
      · intro aid um hm
        rw [hext] at hm
        rcases List.mem_append.mp hm with hm | hm
        · simp [lookupTrace] at hm
        · exact hfe aid um hm

/-- Witness for C8 at a concrete input with an oracle that makes the
entrypoint-update call fault: even so, the bundles of the storage state are
untouched. -/
theorem deploy_no_rollback_no_retry_witness :
    (deploy wFaultUpd wAccept wStateLinked wReq).state.bundles =
      wStateLinked.bundles :=
  (deploy_no_rollback_no_retry wFaultUpd wAccept wStateLinked wReq).2.2.1

end StaticDeploy
